import Mathlib

/-!
# Verification of the gb-rs Game Boy emulator core

A shallow embedding of the gb-rs sources (`src/cpu.rs`, `src/memory.rs`,
`src/graphics.rs`, `src/joypad.rs`, `src/gb.rs`, `src/utils.rs`) in Lean 4,
together with theorems settling the specification claims about it.

Conventions of the embedding:
* Rust `u8` (`Byte`) and `u16` (`Word`/`Address`) values are `Nat`s; wrapping
  arithmetic is explicit `% 256` / `% 65536`; `i8` (`SignedByte`) is `Int`.
* Memory is a total function `Nat → Nat`; `Memory::read_byte` /
  `Memory::write_byte` keep their bounds checks from the source.
* Rust panics (the catch-all arm of `CPU::execute`, `unwrap`/`expect` on
  failed reads) are modelled by `Option`: a `none` result is a panic, not a
  state transition.
-/

namespace GB

abbrev Byte := Nat
abbrev Word := Nat
abbrev Address := Nat
abbrev SignedByte := Int

/-! ## utils.rs -/

namespace ByteOP

/-- `ByteOP::mask` for `u8`: `self & mask`. -/
def mask (b m : Byte) : Byte := b &&& m

/-- `ByteOP::get_low_nibble`: `self & 0xF`. -/
def get_low_nibble (b : Byte) : Byte := b &&& 0xF

/-- `ByteOP::get_high_nibble`: `(self & 0xF0) >> 4`. -/
def get_high_nibble (b : Byte) : Byte := (b &&& 0xF0) >>> 4

end ByteOP

namespace WordOP

/-- `WordOP::get_low` for `u16`: `(self & 0xff) as Byte`. -/
def get_low (w : Word) : Byte := w &&& 0xff

/-- `WordOP::get_high` for `u16`: `(self >> 8) as Byte` (the cast truncates to 8 bits). -/
def get_high (w : Word) : Byte := (w >>> 8) &&& 0xff

/-- `WordOP::set_high`: `(self & 0xff) | ((value as Word) << 8)`. -/
def set_high (w : Word) (value : Byte) : Word := (w &&& 0xff) ||| (value <<< 8)

end WordOP

/-- `utils::to_word`, imported by `cpu.rs` and `memory.rs` under the name
`bytes2word`: assemble a word from `lsb` and `msb`. -/
def bytes2word (lsb msb : Byte) : Word := WordOP.set_high lsb msb

/-- `n as SignedByte` on a `u8` value: the `i8` reinterpretation. -/
def toSigned (n : Byte) : SignedByte := if n < 128 then (n : Int) else (n : Int) - 256

/-- `u16` addition. Debug Rust panics on overflow of `+=`; release wraps.
We model the wrap, which agrees with Rust wherever no overflow occurs. -/
def word_add (x y : Word) : Word := (x + y) % 0x10000

/-- `u16` subtraction (wrapping, same remark as `word_add`). -/
def word_sub (x y : Word) : Word := (x + 0x10000 - y % 0x10000) % 0x10000

/-- `u16::wrapping_add_signed` as used by `JR` / `JR cc`. -/
def wrapping_add_signed (x : Word) (e : Int) : Word := (((x : Int) + e) % 65536).toNat

/-- `u8::overflowing_add`: the wrapped sum and the carry-out. -/
def overflowing_add (x y : Byte) : Byte × Bool := ((x + y) % 256, decide (255 < x + y))

/-- `u8::overflowing_sub`: the wrapped difference and the borrow. -/
def overflowing_sub (x y : Byte) : Byte × Bool :=
  (if x < y then x + 256 - y else x - y, decide (x < y))

/-- `u16::overflowing_add` (used by `INC rr`). -/
def overflowing_add16 (x y : Word) : Word × Bool :=
  ((x + y) % 65536, decide (65535 < x + y))

/-- `u16::overflowing_sub` (used by `DEC rr`). -/
def overflowing_sub16 (x y : Word) : Word × Bool :=
  (if x < y then x + 65536 - y else x - y, decide (x < y))

/-! ## memory.rs -/

/-- The flat 64 KiB address space: `Memory { memory: [Byte; 0x10000] }`,
as a total function from addresses to bytes. -/
abbrev Memory := Nat → Byte

def MEMORY_SIZE : Nat := 0x10000

namespace Memory

/-- `Memory::read_byte`: `Some(memory[address])` when in bounds, `None` otherwise. -/
def read_byte (m : Memory) (address : Address) : Option Byte :=
  if address < MEMORY_SIZE then some (m address) else none

/-- `Memory::read_byte_unsafe`: unchecked indexing (used by the I/O-register
paths of `graphics.rs` / `joypad.rs` / `gb.rs`, always at fixed register
addresses below 0x10000). -/
def read_byte_unsafe (m : Memory) (address : Address) : Byte := m address

/-- `Memory::read_word`: little-endian pair read, `None` past the end. -/
def read_word (m : Memory) (address : Address) : Option Word :=
  if address + 1 < MEMORY_SIZE then some (bytes2word (m address) (m (address + 1))) else none

/-- `Memory::write_byte`: store when in bounds. The source returns
`Option<()>`, which every caller drops, so the embedding returns the
(possibly unchanged) memory. -/
def write_byte (m : Memory) (address : Address) (b : Byte) : Memory :=
  fun a => if address < MEMORY_SIZE ∧ a = address then b else m a

/-- `Memory::load_rom_offset`: `memory[offset..rom.len()].copy_from_slice(&rom[offset..])`.
The slice indexing panics (`none`) unless `offset ≤ rom.len() ≤ 0x10000`;
note that it copies `rom[i]` to `memory[i]` only for `offset ≤ i < rom.len()`. -/
def load_rom_offset (m : Memory) (rom_data : List Byte) (offset : Address) : Option Memory :=
  if offset ≤ rom_data.length ∧ rom_data.length ≤ MEMORY_SIZE then
    some (fun a => if offset ≤ a ∧ a < rom_data.length then rom_data.getD a 0 else m a)
  else none

end Memory

/-- `GameBoy::load_rom`: `self.memory.load_rom_offset(rom_data, 0x100)`. -/
def GameBoy.load_rom (m : Memory) (rom_data : List Byte) : Option Memory :=
  Memory.load_rom_offset m rom_data 0x100

/-! ## cpu.rs: registers, conditions, instructions -/

inductive Register
  | A | B | C | D | E | H | L | HL
  deriving DecidableEq

namespace Register

/-- `Register::get_r`. The source's last arm (`code & 0b111 == 7`) yields `A`;
the panic arm is unreachable since `code & 0b111 < 8`, so the catch-all
here is the `7 ⇒ A` case. -/
def get_r (code : Byte) : Register :=
  match ByteOP.mask code 0b111 with
  | 0 => .B
  | 1 => .C
  | 2 => .D
  | 3 => .E
  | 4 => .H
  | 5 => .L
  | 6 => .HL
  | _ => .A

/-- `Register::get_rr`: split `0bxxxyyy` into two register codes. -/
def get_rr (code : Byte) : Register × Register :=
  (get_r ((ByteOP.mask code (0b111 <<< 3)) >>> 3), get_r (ByteOP.mask code 0b111))

end Register

inductive Register16
  | BC | DE | HL | SP | AF
  deriving DecidableEq

/-- `Register16::get_rr`. The source's `3 if !sp ⇒ AF` is the catch-all
here; the panic arm is unreachable since `code & 0b11 < 4`. -/
def Register16.get_rr (code : Byte) (sp : Bool) : Register16 :=
  match ByteOP.mask code 0b11, sp with
  | 0, _ => .BC
  | 1, _ => .DE
  | 2, _ => .HL
  | 3, true => .SP
  | _, _ => .AF

inductive Condition
  | NonZero | Zero | NotCarry | Carry
  deriving DecidableEq

/-- `Condition::get_cond`; the panic arm is unreachable since `code & 0b11 < 4`. -/
def Condition.get_cond (code : Byte) : Condition :=
  match code &&& 0b11 with
  | 0 => .NonZero
  | 1 => .Zero
  | 2 => .NotCarry
  | _ => .Carry

/-- The `Instruction` enum of `cpu.rs`, verbatim. -/
inductive Instruction
  | LD_R_R (r1 r2 : Register)
  | LD_R_N (r : Register) (n : Byte)
  | LD_R_HL (r : Register)
  | LD_HL_R (r : Register)
  | LD_HL_N (n : Byte)
  | LD_A_BC
  | LD_A_DE
  | LD_BC_A
  | LD_DE_A
  | LD_A_NN (nn : Address)
  | LD_NN_A (nn : Address)
  | LDH_A_C
  | LDH_C_A
  | LDH_A_N (n : Byte)
  | LDH_N_A (n : Byte)
  | LD_A_HL_D
  | LD_A_HL_I
  | LD_HL_A_D
  | LD_HL_A_I
  | LD_RR_NN (rr : Register16) (nn : Word)
  | LD_NN_SP (nn : Word)
  | LD_SP_HL
  | LD_HL_SP (e : SignedByte)
  | PUSH (rr : Register16)
  | POP (rr : Register16)
  | ADD_R (r : Register)
  | ADD_HL
  | ADD_N (n : Byte)
  | SUB_R (r : Register)
  | SUB_HL
  | SUB_N (n : Byte)
  | AND_R (r : Register)
  | AND_HL
  | AND_N (n : Byte)
  | OR_R (r : Register)
  | OR_HL
  | OR_N (n : Byte)
  | ADC_R (r : Register)
  | ADC_HL
  | ADC_N (n : Byte)
  | SBC_R (r : Register)
  | SBC_HL
  | SBC_N (n : Byte)
  | XOR_R (r : Register)
  | XOR_HL
  | XOR_N (n : Byte)
  | CP_R (r : Register)
  | CP_HL
  | CP_N (n : Byte)
  | INC_R (r : Register)
  | INC_RR (rr : Register16)
  | INC_HL
  | DEC_R (r : Register)
  | DEC_RR (rr : Register16)
  | DEC_HL
  | ADD_HL_RR (rr : Register16)
  | ADD_SP_E (e : SignedByte)
  | RLCA
  | RRCA
  | RLA
  | RRA
  | RLC (r : Register)
  | RLC_HL
  | RRC (r : Register)
  | RRC_HL
  | RL (r : Register)
  | RL_HL
  | RR (r : Register)
  | RR_HL
  | SLA (r : Register)
  | SLA_HL
  | SRA (r : Register)
  | SRA_HL
  | SWAP (r : Register)
  | SWAP_HL
  | SRL (r : Register)
  | SRL_HL
  | BIT (b : Byte) (r : Register)
  | BIT_HL (b : Byte)
  | RES (b : Byte) (r : Register)
  | RES_HL (b : Byte)
  | SET (b : Byte) (r : Register)
  | SET_HL (b : Byte)
  | JP_NN (nn : Address)
  | JP_HL
  | JP_CC_NN (cc : Condition) (nn : Address)
  | JR (e : SignedByte)
  | JR_CC (cc : Condition) (e : SignedByte)
  | CALL (nn : Address)
  | CALL_CC (cc : Condition) (nn : Address)
  | RET
  | RET_CC (cc : Condition)
  | RETI
  | RST (n : Byte)
  | CCF
  | SCF
  | DAA
  | CPL
  | EI
  | DI
  | NOP
  | HALT
  | STOP

/-- `SizedInstruction`: a decoded instruction with its byte length. -/
structure SizedInstruction where
  instruction : Instruction
  size : Word

/-- `OpCode(Byte, Byte)`: pattern and mask. -/
structure OpCode where
  pattern : Byte
  mask : Byte

/-- `OpCode::matches`: `code.mask(self.1) == self.0`. -/
def OpCode.matches (oc : OpCode) (code : Byte) : Bool :=
  ByteOP.mask code oc.mask == oc.pattern

namespace SizedInstruction

def NOP : OpCode := ⟨0, 0b11111111⟩
def LD1 : OpCode := ⟨0b01000000, 0b11000000⟩
def LD2 : OpCode := ⟨0b00000110, 0b11000111⟩
def LD3 : OpCode := ⟨0b11101010, 0b11101111⟩
def LD4 : OpCode := ⟨0b11100010, 0b11101111⟩
def LD5 : OpCode := ⟨0b11100000, 0b11101111⟩
def LD6 : OpCode := ⟨0b00000010, 0b11000111⟩
def LD7 : OpCode := ⟨0b00000001, 0b11001111⟩
def LD8 : OpCode := ⟨0b00001000, 0b11111111⟩
def LD9 : OpCode := ⟨0b11111000, 0b11111110⟩
def PUSH_POP : OpCode := ⟨0b11000001, 0b11001011⟩
def ARITH_OP_R : OpCode := ⟨0b10000000, 0b11001000⟩
def ARITH_OP_C_R : OpCode := ⟨0b10001000, 0b11001000⟩
def ARITH_OP_N : OpCode := ⟨0b11000110, 0b11001111⟩
def ARITH_OP_C_N : OpCode := ⟨0b11001110, 0b11001111⟩
def INC_DEC_R : OpCode := ⟨0b00000100, 0b11000110⟩
def CARRY : OpCode := ⟨0b00110111, 0b11110111⟩
def INC_DEC_RR : OpCode := ⟨0b00000011, 0b11000111⟩
def CALL : OpCode := ⟨0b11000100, 0b11100110⟩
def RET : OpCode := ⟨0b11001001, 0b11111111⟩
def RET_CC : OpCode := ⟨0b11000000, 0b11100111⟩
def RETI : OpCode := ⟨0b11011001, 0b11111111⟩
def RST : OpCode := ⟨0b11000111, 0b11000111⟩
def JP : OpCode := ⟨0b11000011, 0b11111111⟩
def JP_HL : OpCode := ⟨0b11101001, 0b11111111⟩
def JP_CC : OpCode := ⟨0b11000010, 0b11100111⟩
def JR : OpCode := ⟨0b00011000, 0b11111111⟩
def JR_CC : OpCode := ⟨0b00100000, 0b11100111⟩
def ADD_HL_RR : OpCode := ⟨0b00001001, 0b11001111⟩
def ADD_SP_E : OpCode := ⟨0b11101000, 0b11111111⟩
def DAA : OpCode := ⟨0x27, 0b11111111⟩
def ROT_ACC : OpCode := ⟨0b00000111, 0b11100111⟩
def CB : OpCode := ⟨0xCB, 0b11111111⟩
def CB1 : OpCode := ⟨0b00000000, 0b11000000⟩
def IR : OpCode := ⟨0b11110011, 0b11110111⟩

/-- `SizedInstruction::decode_cb`: decode the byte after a `0xCB` prefix.
The panic arms on nibble / high-bit values are unreachable for byte input
and are folded into the final catch-all of each `match`. -/
def decode_cb (memory : Memory) (address : Address) : Option SizedInstruction :=
  match memory.read_byte address with
  | Option.none => none
  | Option.some opcode =>
    let r := Register.get_r opcode
    let instruction :=
      if CB1.matches opcode then
        if opcode &&& (1 <<< 3) > 0 then
          match ByteOP.get_high_nibble opcode with
          | 0 => if r = .HL then Instruction.RRC_HL else Instruction.RRC r
          | 1 => if r = .HL then Instruction.RR_HL else Instruction.RR r
          | 2 => if r = .HL then Instruction.SRA_HL else Instruction.SRA r
          | _ => if r = .HL then Instruction.SRL_HL else Instruction.SRL r
        else
          match ByteOP.get_high_nibble opcode with
          | 0 => if r = .HL then Instruction.RLC_HL else Instruction.RLC r
          | 1 => if r = .HL then Instruction.RL_HL else Instruction.RL r
          | 2 => if r = .HL then Instruction.SLA_HL else Instruction.SLA r
          | _ => if r = .HL then Instruction.SWAP_HL else Instruction.SWAP r
      else
        let b := (opcode >>> 3) &&& 0b111
        let r := Register.get_r (opcode &&& 0b111)
        match opcode >>> 6 with
        | 1 => if r = .HL then Instruction.BIT_HL b else Instruction.BIT b r
        | 2 => if r = .HL then Instruction.RES_HL b else Instruction.RES b r
        | _ => if r = .HL then Instruction.SET_HL b else Instruction.SET b r
    some { instruction := instruction, size := 1 }

/-- `SizedInstruction::decode`: the ordered pattern/mask chain of `cpu.rs`.
(The source lists the `INC_DEC_RR` branch twice with an identical body; the
duplicate is dead code and is not repeated here.) -/
def decode (memory : Memory) (address : Address) : Option SizedInstruction :=
  match memory.read_byte address with
  | Option.none => none
  | Option.some opcode =>
    if NOP.matches opcode then
      some ⟨Instruction.NOP, 1⟩
    else if LD1.matches opcode then
      let (lr, rr) := Register.get_rr opcode
      let instruction :=
        match lr, rr with
        | Register.HL, Register.HL => Instruction.HALT
        | Register.HL, r => Instruction.LD_HL_R r
        | l, Register.HL => Instruction.LD_R_HL l
        | l, r => Instruction.LD_R_R l r
      some ⟨instruction, 1⟩
    else if LD2.matches opcode then
      let r := Register.get_r (opcode >>> 3)
      match memory.read_byte (address + 1) with
      | Option.none => none
      | Option.some n =>
        let instruction :=
          match r with
          | Register.HL => Instruction.LD_HL_N n
          | reg => Instruction.LD_R_N reg n
        some ⟨instruction, 2⟩
    else if LD3.matches opcode then
      match memory.read_word (address + 1) with
      | Option.none => none
      | Option.some nn =>
        let instruction :=
          if opcode &&& (1 <<< 4) ≠ 0 then Instruction.LD_A_NN nn else Instruction.LD_NN_A nn
        some ⟨instruction, 3⟩
    else if LD4.matches opcode then
      let instruction :=
        if opcode &&& (1 <<< 4) ≠ 0 then Instruction.LDH_A_C else Instruction.LDH_C_A
      some ⟨instruction, 1⟩
    else if LD5.matches opcode then
      match memory.read_byte (address + 1) with
      | Option.none => none
      | Option.some n =>
        let instruction :=
          if opcode &&& (1 <<< 4) ≠ 0 then Instruction.LDH_A_N n else Instruction.LDH_N_A n
        some ⟨instruction, 2⟩
    else if LD6.matches opcode then
      let instruction :=
        if opcode &&& (1 <<< 3) ≠ 0 then
          match ByteOP.get_high_nibble opcode with
          | 0 => Instruction.LD_A_BC
          | 1 => Instruction.LD_A_DE
          | 2 => Instruction.LD_A_HL_I
          | _ => Instruction.LD_A_HL_D
        else
          match ByteOP.get_high_nibble opcode with
          | 0 => Instruction.LD_BC_A
          | 1 => Instruction.LD_DE_A
          | 2 => Instruction.LD_HL_A_I
          | _ => Instruction.LD_HL_A_D
      some ⟨instruction, 1⟩
    else if LD7.matches opcode then
      let rr := Register16.get_rr (opcode >>> 4) true
      match memory.read_word (address + 1) with
      | Option.none => none
      | Option.some nn => some ⟨Instruction.LD_RR_NN rr nn, 3⟩
    else if LD8.matches opcode then
      match memory.read_word (address + 1) with
      | Option.none => none
      | Option.some nn => some ⟨Instruction.LD_NN_SP nn, 3⟩
    else if LD9.matches opcode then
      if opcode &&& 1 = 1 then
        some ⟨Instruction.LD_SP_HL, 1⟩
      else
        match memory.read_byte (address + 1) with
        | Option.none => none
        | Option.some e => some ⟨Instruction.LD_HL_SP (toSigned e), 2⟩
    else if PUSH_POP.matches opcode then
      let rr := Register16.get_rr (opcode >>> 4) false
      if opcode &&& (1 <<< 2) ≠ 0 then
        some ⟨Instruction.PUSH rr, 1⟩
      else
        some ⟨Instruction.POP rr, 1⟩
    else if ARITH_OP_R.matches opcode then
      let r := Register.get_r opcode
      let instruction :=
        match ByteOP.get_high_nibble opcode, r with
        | 8, Register.HL => Instruction.ADD_HL
        | 8, r => Instruction.ADD_R r
        | 9, Register.HL => Instruction.SUB_HL
        | 9, r => Instruction.SUB_R r
        | 0xa, Register.HL => Instruction.AND_HL
        | 0xa, r => Instruction.AND_R r
        | _, Register.HL => Instruction.OR_HL
        | _, r => Instruction.OR_R r
      some ⟨instruction, 1⟩
    else if ARITH_OP_C_R.matches opcode then
      let r := Register.get_r opcode
      let instruction :=
        match ByteOP.get_high_nibble opcode, r with
        | 8, Register.HL => Instruction.ADC_HL
        | 8, r => Instruction.ADC_R r
        | 9, Register.HL => Instruction.SBC_HL
        | 9, r => Instruction.SBC_R r
        | 0xa, Register.HL => Instruction.XOR_HL
        | 0xa, r => Instruction.XOR_R r
        | _, Register.HL => Instruction.CP_HL
        | _, r => Instruction.CP_R r
      some ⟨instruction, 1⟩
    else if ARITH_OP_N.matches opcode then
      match memory.read_byte (address + 1) with
      | Option.none => none
      | Option.some n =>
        let instruction :=
          match ByteOP.get_high_nibble opcode with
          | 0xc => Instruction.ADD_N n
          | 0xd => Instruction.SUB_N n
          | 0xe => Instruction.AND_N n
          | _ => Instruction.OR_N n
        some ⟨instruction, 2⟩
    else if ARITH_OP_C_N.matches opcode then
      match memory.read_byte (address + 1) with
      | Option.none => none
      | Option.some n =>
        let instruction :=
          match ByteOP.get_high_nibble opcode with
          | 0xc => Instruction.ADC_N n
          | 0xd => Instruction.SBC_N n
          | 0xe => Instruction.XOR_N n
          | _ => Instruction.CP_N n
        some ⟨instruction, 2⟩
    else if INC_DEC_R.matches opcode then
      let r := Register.get_r (opcode >>> 3)
      let instruction :=
        if opcode &&& 1 = 0 then
          match r with
          | Register.HL => Instruction.INC_HL
          | r => Instruction.INC_R r
        else
          match r with
          | Register.HL => Instruction.DEC_HL
          | r => Instruction.DEC_R r
      some ⟨instruction, 1⟩
    else if CARRY.matches opcode then
      let instruction :=
        if opcode &&& (1 <<< 3) ≠ 0 then Instruction.CCF else Instruction.SCF
      some ⟨instruction, 1⟩
    else if INC_DEC_RR.matches opcode then
      let rr := Register16.get_rr (opcode >>> 4) true
      let instruction :=
        if opcode &&& (1 <<< 3) ≠ 0 then Instruction.DEC_RR rr else Instruction.INC_RR rr
      some ⟨instruction, 1⟩
    else if CALL.matches opcode then
      match memory.read_word (address + 1) with
      | Option.none => none
      | Option.some nn =>
        let instruction :=
          if opcode &&& 1 ≠ 0 then
            Instruction.CALL nn
          else
            Instruction.CALL_CC (Condition.get_cond (opcode >>> 3)) nn
        some ⟨instruction, 3⟩
    else if RET.matches opcode then
      some ⟨Instruction.RET, 1⟩
    else if RET_CC.matches opcode then
      some ⟨Instruction.RET_CC (Condition.get_cond (opcode >>> 3)), 1⟩
    else if RETI.matches opcode then
      some ⟨Instruction.RETI, 1⟩
    else if RST.matches opcode then
      let n := (opcode >>> 3) &&& 0b111
      some ⟨Instruction.RST (n * 8), 1⟩
    else if JP.matches opcode then
      match memory.read_word (address + 1) with
      | Option.none => none
      | Option.some nn => some ⟨Instruction.JP_NN nn, 3⟩
    else if JP_HL.matches opcode then
      some ⟨Instruction.JP_HL, 1⟩
    else if JP_CC.matches opcode then
      match memory.read_word (address + 1) with
      | Option.none => none
      | Option.some nn =>
        some ⟨Instruction.JP_CC_NN (Condition.get_cond (opcode >>> 3)) nn, 3⟩
    else if JR.matches opcode then
      match memory.read_byte (address + 1) with
      | Option.none => none
      | Option.some n => some ⟨Instruction.JR (toSigned n), 2⟩
    else if JR_CC.matches opcode then
      match memory.read_byte (address + 1) with
      | Option.none => none
      | Option.some n =>
        some ⟨Instruction.JR_CC (Condition.get_cond (opcode >>> 3)) (toSigned n), 2⟩
    else if DAA.matches opcode then
      some ⟨Instruction.DAA, 1⟩
    else if ADD_HL_RR.matches opcode then
      some ⟨Instruction.ADD_HL_RR (Register16.get_rr (opcode >>> 4) true), 1⟩
    else if ADD_SP_E.matches opcode then
      match memory.read_byte (address + 1) with
      | Option.none => none
      | Option.some e => some ⟨Instruction.ADD_SP_E (toSigned e), 2⟩
    else if ROT_ACC.matches opcode then
      let instruction :=
        if opcode &&& (1 <<< 3) > 0 then
          if opcode &&& (1 <<< 4) > 0 then Instruction.RRA else Instruction.RRCA
        else
          if opcode &&& (1 <<< 4) > 0 then Instruction.RLA else Instruction.RLCA
      some ⟨instruction, 1⟩
    else if CB.matches opcode then
      match decode_cb memory (address + 1) with
      | Option.none => none
      | Option.some si => some { si with size := si.size + 1 }
    else if IR.matches opcode then
      let instruction :=
        if opcode &&& (1 <<< 3) > 0 then Instruction.EI else Instruction.DI
      some ⟨instruction, 1⟩
    else
      none

end SizedInstruction


/-! ## cpu.rs: the CPU state and instruction execution -/

/-- The `CPU` register file of `cpu.rs`. -/
structure CPU where
  a : Byte
  b : Byte
  c : Byte
  d : Byte
  e : Byte
  h : Byte
  l : Byte
  f : Byte
  sp : Word
  pc : Word
  ime : Bool
  deriving DecidableEq

namespace CPU

def ZERO_FLAG : Byte := 0b10000000
def SUBTRACT_FLAG : Byte := 0b01000000
def HALF_CARRY_FLAG : Byte := 0b00100000
def CARRY_FLAG : Byte := 0b00010000

/-- `CPU::new`. -/
def new : CPU :=
  { a := 0, b := 0, c := 0, d := 0, e := 0, h := 0, l := 0, f := 0x00,
    sp := 0xFFFE, pc := 0x100, ime := false }

/-- `CPU::get_flag`: `(self.f & flag) > 0`. -/
def get_flag (cpu : CPU) (flag : Byte) : Bool := decide (0 < cpu.f &&& flag)

/-- `CPU::set_flag`: `self.f |= flag`. -/
def set_flag (cpu : CPU) (flag : Byte) : CPU := { cpu with f := cpu.f ||| flag }

/-- `CPU::reset_flag`: `self.f &= !flag` (`!flag` is the `u8` complement). -/
def reset_flag (cpu : CPU) (flag : Byte) : CPU := { cpu with f := cpu.f &&& (0xFF ^^^ flag) }

/-- `CPU::reset_all_flags`: `self.f = 0`. -/
def reset_all_flags (cpu : CPU) : CPU := { cpu with f := 0 }

/-- `CPU::zero_flag`: reset Z, then set it iff `result == 0`. -/
def zero_flag (cpu : CPU) (result : Byte) : CPU :=
  let cpu1 := cpu.reset_flag ZERO_FLAG
  if result = 0 then cpu1.set_flag ZERO_FLAG else cpu1

/-- `CPU::half_carry_flag_add`: reset H, then set it iff `(b1&0xF)+(b2&0xF) > 0xF`. -/
def half_carry_flag_add (cpu : CPU) (b1 b2 : Byte) : CPU :=
  let cpu1 := cpu.reset_flag HALF_CARRY_FLAG
  if 0x0F < (b1 &&& 0x0F) + (b2 &&& 0x0F) then cpu1.set_flag HALF_CARRY_FLAG else cpu1

/-- `CPU::half_carry_flag_sub`: reset H, then set it iff `(b1&0xF) < (b2&0xF)`. -/
def half_carry_flag_sub (cpu : CPU) (b1 b2 : Byte) : CPU :=
  let cpu1 := cpu.reset_flag HALF_CARRY_FLAG
  if (b1 &&& 0x0F) < (b2 &&& 0x0F) then cpu1.set_flag HALF_CARRY_FLAG else cpu1

/-- `CPU::get_register`; the `HL` arm panics in the source (`none` here). -/
def get_register (cpu : CPU) (reg : Register) : Option Byte :=
  match reg with
  | .A => some cpu.a
  | .B => some cpu.b
  | .C => some cpu.c
  | .D => some cpu.d
  | .E => some cpu.e
  | .H => some cpu.h
  | .L => some cpu.l
  | .HL => none

/-- `CPU::set_register`; the `HL` arm panics in the source (`none` here). -/
def set_register (cpu : CPU) (reg : Register) (byte : Byte) : Option CPU :=
  match reg with
  | .A => some { cpu with a := byte }
  | .B => some { cpu with b := byte }
  | .C => some { cpu with c := byte }
  | .D => some { cpu with d := byte }
  | .E => some { cpu with e := byte }
  | .H => some { cpu with h := byte }
  | .L => some { cpu with l := byte }
  | .HL => none

/-- `CPU::get_register16`. -/
def get_register16 (cpu : CPU) (reg : Register16) : Word :=
  match reg with
  | .SP => cpu.sp
  | .BC => bytes2word cpu.c cpu.b
  | .DE => bytes2word cpu.e cpu.d
  | .AF => bytes2word cpu.f cpu.a
  | .HL => bytes2word cpu.l cpu.h

/-- `CPU::set_register16`. Note that the `AF` arm stores the low byte into
`f` verbatim (no masking of the low nibble). -/
def set_register16 (cpu : CPU) (reg : Register16) (word : Word) : CPU :=
  match reg with
  | .SP => { cpu with sp := word }
  | .BC => { cpu with b := WordOP.get_high word, c := WordOP.get_low word }
  | .DE => { cpu with d := WordOP.get_high word, e := WordOP.get_low word }
  | .AF => { cpu with a := WordOP.get_high word, f := WordOP.get_low word }
  | .HL => { cpu with h := WordOP.get_high word, l := WordOP.get_low word }

/-- `CPU::get_hl`. -/
def get_hl (cpu : CPU) : Word := cpu.get_register16 .HL

/-- `CPU::set_hl`. -/
def set_hl (cpu : CPU) (word : Word) : CPU := cpu.set_register16 .HL word

/-- `CPU::get_condition`. -/
def get_condition (cpu : CPU) (cc : Condition) : Bool :=
  match cc with
  | .NonZero => !cpu.get_flag ZERO_FLAG
  | .Zero => cpu.get_flag ZERO_FLAG
  | .NotCarry => !cpu.get_flag CARRY_FLAG
  | .Carry => cpu.get_flag CARRY_FLAG

/-- The `match instruction.instruction` dispatch of `CPU::execute`, after
decoding. Only the arms present in the source change the state; every other
decodable instruction falls into the `_ ⇒ panic!("Unimplemented instruction")`
arm, modelled by `none`. -/
def exec_instruction (cpu : CPU) (memory : Memory) (si : SizedInstruction) :
    Option (CPU × Memory) :=
  match si.instruction with
  | .NOP => some ({ cpu with pc := word_add cpu.pc si.size }, memory)
  | .ADD_R r =>
    match cpu.get_register r with
    | Option.none => none
    | Option.some reg_val =>
      let (result, overflow) := overflowing_add cpu.a reg_val
      let cpu1 := cpu.zero_flag result
      let cpu2 := cpu1.half_carry_flag_add cpu.a reg_val
      let cpu3 := cpu2.reset_flag SUBTRACT_FLAG
      let cpu4 := cpu3.reset_flag CARRY_FLAG
      let cpu5 := if overflow then cpu4.set_flag CARRY_FLAG else cpu4
      some ({ cpu5 with a := result, pc := word_add cpu5.pc si.size }, memory)
  | .ADD_N n =>
    let (result, overflow) := overflowing_add cpu.a n
    let cpu1 := cpu.zero_flag result
    let cpu2 := cpu1.half_carry_flag_add cpu.a n
    let cpu3 := cpu2.reset_flag SUBTRACT_FLAG
    let cpu4 := cpu3.reset_flag CARRY_FLAG
    let cpu5 := if overflow then cpu4.set_flag CARRY_FLAG else cpu4
    some ({ cpu5 with a := result, pc := word_add cpu5.pc si.size }, memory)
  | .SUB_R r =>
    match cpu.get_register r with
    | Option.none => none
    | Option.some reg_val =>
      let (result, overflow) := overflowing_sub cpu.a reg_val
      let cpu1 := cpu.zero_flag result
      let cpu2 := cpu1.half_carry_flag_sub cpu.a reg_val
      let cpu3 := cpu2.set_flag SUBTRACT_FLAG
      let cpu4 := cpu3.reset_flag CARRY_FLAG
      let cpu5 := if overflow then cpu4.set_flag CARRY_FLAG else cpu4
      some ({ cpu5 with a := result, pc := word_add cpu5.pc si.size }, memory)
  | .SUB_N n =>
    let (result, overflow) := overflowing_sub cpu.a n
    let cpu1 := cpu.zero_flag result
    let cpu2 := cpu1.half_carry_flag_sub cpu.a n
    let cpu3 := cpu2.set_flag SUBTRACT_FLAG
    let cpu4 := cpu3.reset_flag CARRY_FLAG
    let cpu5 := if overflow then cpu4.set_flag CARRY_FLAG else cpu4
    some ({ cpu5 with a := result, pc := word_add cpu5.pc si.size }, memory)
  | .AND_N n =>
    let cpu0 := { cpu with pc := word_add cpu.pc si.size }
    let result := cpu0.a &&& n
    let cpu1 := { cpu0 with a := result }
    let cpu2 := cpu1.zero_flag result
    let cpu3 := cpu2.set_flag HALF_CARRY_FLAG
    let cpu4 := cpu3.reset_flag SUBTRACT_FLAG
    let cpu5 := cpu4.reset_flag CARRY_FLAG
    some (cpu5, memory)
  | .OR_R r =>
    match cpu.get_register r with
    | Option.none => none
    | Option.some reg_val =>
      let result := cpu.a ||| reg_val
      let cpu1 := cpu.reset_all_flags
      let cpu2 := cpu1.zero_flag result
      some ({ cpu2 with a := result, pc := word_add cpu2.pc si.size }, memory)
  | .XOR_R r =>
    match cpu.get_register r with
    | Option.none => none
    | Option.some reg_val =>
      let result := cpu.a ^^^ reg_val
      let cpu1 := cpu.zero_flag result
      let cpu2 := cpu1.reset_flag SUBTRACT_FLAG
      let cpu3 := cpu2.reset_flag HALF_CARRY_FLAG
      some ({ cpu3 with a := result, pc := word_add cpu3.pc si.size }, memory)
  | .XOR_HL =>
    match memory.read_byte cpu.get_hl with
    | Option.none => none
    | Option.some val =>
      let result := cpu.a ^^^ val
      let cpu1 := cpu.zero_flag result
      let cpu2 := cpu1.reset_flag SUBTRACT_FLAG
      let cpu3 := cpu2.reset_flag HALF_CARRY_FLAG
      some ({ cpu3 with a := result, pc := word_add cpu3.pc si.size }, memory)
  | .CP_N n =>
    let (result, overflow) := overflowing_sub cpu.a n
    let cpu1 := cpu.zero_flag result
    let cpu2 := cpu1.half_carry_flag_sub cpu.a n
    let cpu3 := cpu2.set_flag SUBTRACT_FLAG
    let cpu4 := cpu3.reset_flag CARRY_FLAG
    let cpu5 := if overflow then cpu4.set_flag CARRY_FLAG else cpu4
    some ({ cpu5 with pc := word_add cpu5.pc si.size }, memory)
  | .LD_R_R r1 r2 =>
    match cpu.get_register r2 with
    | Option.none => none
    | Option.some data =>
      match cpu.set_register r1 data with
      | Option.none => none
      | Option.some cpu1 => some ({ cpu1 with pc := word_add cpu1.pc si.size }, memory)
  | .LD_R_N r n =>
    match cpu.set_register r n with
    | Option.none => none
    | Option.some cpu1 => some ({ cpu1 with pc := word_add cpu1.pc si.size }, memory)
  | .LD_R_HL r =>
    match memory.read_byte cpu.get_hl with
    | Option.none => none
    | Option.some data =>
      match cpu.set_register r data with
      | Option.none => none
      | Option.some cpu1 => some ({ cpu1 with pc := word_add cpu1.pc si.size }, memory)
  | .LD_RR_NN rr nn =>
    let cpu1 := cpu.set_register16 rr nn
    some ({ cpu1 with pc := word_add cpu1.pc si.size }, memory)
  | .LD_A_HL_I =>
    match memory.read_byte cpu.get_hl with
    | Option.none => none
    | Option.some data =>
      let cpu1 := { cpu with a := data }
      let cpu2 := cpu1.set_hl (word_add cpu1.get_hl 1)
      some ({ cpu2 with pc := word_add cpu2.pc si.size }, memory)
  | .LD_DE_A =>
    let address := cpu.get_register16 .DE
    some ({ cpu with pc := word_add cpu.pc si.size }, memory.write_byte address cpu.a)
  | .LDH_C_A =>
    let address := bytes2word cpu.c 0xFF
    some ({ cpu with pc := word_add cpu.pc si.size }, memory.write_byte address cpu.a)
  | .LD_HL_R r =>
    match cpu.get_register r with
    | Option.none => none
    | Option.some data =>
      some ({ cpu with pc := word_add cpu.pc si.size }, memory.write_byte cpu.get_hl data)
  | .LD_HL_A_D =>
    let memory1 := memory.write_byte cpu.get_hl cpu.a
    let cpu1 := cpu.set_hl (word_sub cpu.get_hl 1)
    some ({ cpu1 with pc := word_add cpu1.pc si.size }, memory1)
  | .LD_HL_A_I =>
    let memory1 := memory.write_byte cpu.get_hl cpu.a
    let cpu1 := cpu.set_hl (word_add cpu.get_hl 1)
    some ({ cpu1 with pc := word_add cpu1.pc si.size }, memory1)
  | .LD_A_DE =>
    let cpu1 := { cpu with pc := word_add cpu.pc si.size }
    match memory.read_byte (cpu1.get_register16 .DE) with
    | Option.none => none
    | Option.some data => some ({ cpu1 with a := data }, memory)
  | .LD_A_NN nn =>
    let cpu1 := { cpu with pc := word_add cpu.pc si.size }
    match memory.read_byte nn with
    | Option.none => none
    | Option.some data => some ({ cpu1 with a := data }, memory)
  | .LD_NN_A nn =>
    some ({ cpu with pc := word_add cpu.pc si.size }, memory.write_byte nn cpu.a)
  | .LDH_N_A n =>
    let cpu1 := { cpu with pc := word_add cpu.pc 2 }
    some (cpu1, memory.write_byte (bytes2word n 0xFF) cpu1.a)
  | .LDH_A_N n =>
    let cpu1 := { cpu with pc := word_add cpu.pc 2 }
    match memory.read_byte (bytes2word n 0xFF) with
    | Option.none => none
    | Option.some data => some ({ cpu1 with a := data }, memory)
  | .INC_R r =>
    match cpu.get_register r with
    | Option.none => none
    | Option.some reg_val =>
      let (result, _overflow) := overflowing_add reg_val 1
      let cpu1 := cpu.zero_flag result
      let cpu2 := cpu1.half_carry_flag_add reg_val 1
      let cpu3 := cpu2.reset_flag SUBTRACT_FLAG
      match cpu3.set_register r result with
      | Option.none => none
      | Option.some cpu4 => some ({ cpu4 with pc := word_add cpu4.pc si.size }, memory)
  | .DEC_R r =>
    match cpu.get_register r with
    | Option.none => none
    | Option.some reg_val =>
      let (result, _overflow) := overflowing_sub reg_val 1
      let cpu1 := cpu.zero_flag result
      let cpu2 := cpu1.half_carry_flag_sub reg_val 1
      let cpu3 := cpu2.set_flag SUBTRACT_FLAG
      match cpu3.set_register r result with
      | Option.none => none
      | Option.some cpu4 => some ({ cpu4 with pc := word_add cpu4.pc si.size }, memory)
  | .INC_RR rr =>
    let reg_val := cpu.get_register16 rr
    let (result, _overflow) := overflowing_add16 reg_val 1
    let cpu1 := cpu.set_register16 rr result
    some ({ cpu1 with pc := word_add cpu1.pc si.size }, memory)
  | .DEC_RR rr =>
    let reg_val := cpu.get_register16 rr
    let (result, _overflow) := overflowing_sub16 reg_val 1
    let cpu1 := cpu.set_register16 rr result
    some ({ cpu1 with pc := word_add cpu1.pc si.size }, memory)
  | .BIT b r =>
    match cpu.get_register r with
    | Option.none => none
    | Option.some reg_val =>
      let result := (reg_val &&& (1 <<< b)) >>> b
      let cpu1 := cpu.reset_flag SUBTRACT_FLAG
      let cpu2 := cpu1.set_flag HALF_CARRY_FLAG
      let cpu3 := cpu2.zero_flag result
      some ({ cpu3 with pc := word_add cpu3.pc si.size }, memory)
  | .JP_NN nn => some ({ cpu with pc := nn }, memory)
  | .JR e =>
    let cpu1 := { cpu with pc := word_add cpu.pc 2 }
    some ({ cpu1 with pc := wrapping_add_signed cpu1.pc e }, memory)
  | .JR_CC cc e =>
    let cpu1 := { cpu with pc := word_add cpu.pc 2 }
    if cpu1.get_condition cc then
      some ({ cpu1 with pc := wrapping_add_signed cpu1.pc e }, memory)
    else
      some (cpu1, memory)
  | .PUSH rr =>
    let cpu1 := { cpu with pc := word_add cpu.pc 1 }
    let cpu2 := { cpu1 with sp := word_sub cpu1.sp 1 }
    let data := cpu2.get_register16 rr
    let memory1 := memory.write_byte cpu2.sp (WordOP.get_high data)
    let cpu3 := { cpu2 with sp := word_sub cpu2.sp 1 }
    let memory2 := memory1.write_byte cpu3.sp (WordOP.get_low data)
    some (cpu3, memory2)
  | .POP rr =>
    let cpu1 := { cpu with pc := word_add cpu.pc 1 }
    match memory.read_byte cpu1.sp with
    | Option.none => none
    | Option.some lsb =>
      let cpu2 := { cpu1 with sp := word_add cpu1.sp 1 }
      match memory.read_byte cpu2.sp with
      | Option.none => none
      | Option.some msb =>
        let cpu3 := { cpu2 with sp := word_add cpu2.sp 1 }
        some (cpu3.set_register16 rr (bytes2word lsb msb), memory)
  | .CALL nn =>
    let cpu1 := { cpu with pc := word_add cpu.pc 3 }
    let cpu2 := { cpu1 with sp := word_sub cpu1.sp 1 }
    let memory1 := memory.write_byte cpu2.sp (WordOP.get_high cpu2.pc)
    let cpu3 := { cpu2 with sp := word_sub cpu2.sp 1 }
    let memory2 := memory1.write_byte cpu3.sp (WordOP.get_low cpu3.pc)
    some ({ cpu3 with pc := nn }, memory2)
  | .CALL_CC cc nn =>
    let cpu1 := { cpu with pc := word_add cpu.pc 3 }
    if cpu1.get_condition cc then
      let cpu2 := { cpu1 with sp := word_sub cpu1.sp 1 }
      let memory1 := memory.write_byte cpu2.sp (WordOP.get_high cpu2.pc)
      let cpu3 := { cpu2 with sp := word_sub cpu2.sp 1 }
      let memory2 := memory1.write_byte cpu3.sp (WordOP.get_low cpu3.pc)
      some ({ cpu3 with pc := nn }, memory2)
    else
      some (cpu1, memory)
  | .RET =>
    let cpu1 := { cpu with pc := word_add cpu.pc 1 }
    match memory.read_byte cpu1.sp with
    | Option.none => none
    | Option.some lsb =>
      let cpu2 := { cpu1 with sp := word_add cpu1.sp 1 }
      match memory.read_byte cpu2.sp with
      | Option.none => none
      | Option.some msb =>
        let cpu3 := { cpu2 with sp := word_add cpu2.sp 1 }
        some ({ cpu3 with pc := bytes2word lsb msb }, memory)
  | .EI => some ({ cpu with ime := true, pc := word_add cpu.pc si.size }, memory)
  | .DI => some ({ cpu with ime := false, pc := word_add cpu.pc si.size }, memory)
  | _ => none

/-- `CPU::execute`: decode at `pc` (panic — `none` — if that fails), then
dispatch on the instruction. -/
def execute (cpu : CPU) (memory : Memory) : Option (CPU × Memory) :=
  match SizedInstruction.decode memory cpu.pc with
  | Option.none => none
  | Option.some instruction => exec_instruction cpu memory instruction

/-- `CPU::handle_interrupts` — the body in `cpu.rs` is empty, so it is the
identity on the machine state. -/
def handle_interrupts (cpu : CPU) (memory : Memory) : CPU × Memory := (cpu, memory)

end CPU


/-! ## Interrupt-controller constants

`clock.rs`, `graphics.rs` and `joypad.rs` reference `CPU::INTERRUPT_FLAG_ADDRESS`
and the per-source bit constants (`LCD_FLAG`, `TIMER_FLAG`, `JOYPAD_FLAG`);
those declarations are absent from the `cpu.rs` in this tree. -/

/-- Modelled from the spec: the IF (interrupt request) register lives at
`0xFF0F`; `cpu.rs` of this tree does not declare the constant its callers use. -/
def INTERRUPT_FLAG_ADDRESS : Address := 0xFF0F

/-- Modelled from the spec: bit 1 of IF is the LCD STAT interrupt request. -/
def LCD_FLAG : Byte := 0b10

/-- Modelled from the spec: bit 4 of IF is the Joypad interrupt request. -/
def JOYPAD_FLAG : Byte := 0b10000

/-- `utils::get_flag` as used by `graphics.rs` (absent from the `utils.rs`
in this tree; same semantics as `Memory::get_flag`): `(byte & flag) > 0`. -/
def get_flag (flag_byte flag : Byte) : Bool := decide (0 < flag_byte &&& flag)

/-- `utils::set_flag` / `set_flag_ref` as used by `graphics.rs` and
`joypad.rs` (absent from the `utils.rs` in this tree; same semantics as
`Memory::set_flag`): `byte | flag`. -/
def set_flag (flag_byte flag : Byte) : Byte := flag_byte ||| flag

/-! ## graphics.rs: the PPU register / interrupt writes -/

/-- `PPUMode` with its line number. -/
inductive PPUMode
  | Mode0 (line : Nat)
  | Mode1 (line : Nat)
  | Mode2 (line : Nat)
  | Mode3 (line : Nat)
  deriving DecidableEq

/-- `PPUMode::to_num`. -/
def PPUMode.to_num : PPUMode → Byte
  | .Mode0 _ => 0
  | .Mode1 _ => 1
  | .Mode2 _ => 2
  | .Mode3 _ => 3

def LCD_STATUS_ADDRESS : Address := 0xFF41
def LY_ADDRESS : Address := 0xFF44
def LYC_ADDRESS : Address := 0xFF45
def LCY_INT_FLAG : Byte := 0b01000000
def MODE2_INT_FLAG : Byte := 0b00100000
def MODE1_INT_FLAG : Byte := 0b00010000
def MODE0_INT_FLAG : Byte := 0b00001000
def LYC_EQ_LY_FLAG : Byte := 0b00000100

namespace Graphics

/-- `Graphics::set_ppu`: mirror the mode into STAT bits 0–1 and request the
LCD STAT interrupt (bit 1 of IF) when the matching STAT source bit is
enabled. The source's `match` guards (`Mode0(_) if get_flag(..)` with a
`_ ⇒ ()` fallthrough) become nested `if`s. `graphics.rs` reads these fixed
I/O addresses with the unchecked byte read. -/
def set_ppu (ppu_mode : PPUMode) (memory : Memory) : Memory :=
  let stat_flag := memory.read_byte_unsafe LCD_STATUS_ADDRESS &&& (0xFF ^^^ 0b11)
  let new_stat_flag := stat_flag ||| ppu_mode.to_num
  let int_flag := memory.read_byte_unsafe INTERRUPT_FLAG_ADDRESS
  let int_flag2 :=
    match ppu_mode with
    | .Mode0 _ => if get_flag stat_flag MODE0_INT_FLAG then set_flag int_flag LCD_FLAG else int_flag
    | .Mode1 _ => if get_flag stat_flag MODE1_INT_FLAG then set_flag int_flag LCD_FLAG else int_flag
    | .Mode2 _ => if get_flag stat_flag MODE2_INT_FLAG then set_flag int_flag LCD_FLAG else int_flag
    | .Mode3 _ => int_flag
  (memory.write_byte INTERRUPT_FLAG_ADDRESS int_flag2).write_byte LCD_STATUS_ADDRESS new_stat_flag

/-- `Graphics::set_lyc`: publish `line_y` to LY (`self.line_y as Byte`),
and on LYC = LY set the STAT coincidence bit and, if the LYC source is
enabled, request the LCD STAT interrupt (bit 1 of IF). -/
def set_lyc (line_y : Nat) (memory : Memory) : Memory :=
  let memory1 := memory.write_byte LY_ADDRESS (line_y % 256)
  let lyc := memory1.read_byte_unsafe LYC_ADDRESS
  if lyc = line_y then
    let stat_flag := memory1.read_byte_unsafe LCD_STATUS_ADDRESS
    let new_stat_flag := set_flag stat_flag LYC_EQ_LY_FLAG
    let memory2 := memory1.write_byte LCD_STATUS_ADDRESS new_stat_flag
    if get_flag stat_flag LCY_INT_FLAG then
      let int_flag := memory2.read_byte_unsafe INTERRUPT_FLAG_ADDRESS
      memory2.write_byte INTERRUPT_FLAG_ADDRESS (set_flag int_flag LCD_FLAG)
    else
      memory2
  else
    memory1

end Graphics

/-! ## joypad.rs -/

/-- The SDL keycodes `Joypad::handle_button` recognizes, plus a stand-in
`Other` for every other keycode (the `_ ⇒ ()` arm). -/
inductive Keycode
  | A | W | D | S | J | K | U | I | Other
  deriving DecidableEq

/-- `Joypad { last_key: Option<Keycode> }`. -/
structure Joypad where
  last_key : Option Keycode
  deriving DecidableEq

namespace Joypad

/-- `Joypad::new`. -/
def new : Joypad := { last_key := none }

/-- `Joypad::handle_button`: a press (`down = true`) is latched — and the
Joypad interrupt (bit 4 of IF) requested — only when `last_key` is `None`;
a press while any key is latched is ignored; a release clears the latch
only if it releases the latched key. Non-recognized keycodes are ignored. -/
def handle_button (jp : Joypad) (keycode : Keycode) (down : Bool) (memory : Memory) :
    Joypad × Memory :=
  match keycode with
  | .Other => (jp, memory)
  | _ =>
    match jp.last_key, down with
    | Option.none, true =>
      let int_flag := memory.read_byte_unsafe INTERRUPT_FLAG_ADDRESS
      ({ last_key := some keycode },
        memory.write_byte INTERRUPT_FLAG_ADDRESS (set_flag int_flag JOYPAD_FLAG))
    | Option.none, false => (jp, memory)
    | Option.some _, true => (jp, memory)
    | Option.some old_key, false =>
      (if old_key = keycode then { last_key := none } else jp, memory)

end Joypad


/-! ## Bitwise toolkit

Small `Nat` lemmas used to reason about the flag byte and the 16-bit
register pairs. -/

lemma land_lor_distrib_right (a b m : ℕ) : (a ||| b) &&& m = (a &&& m) ||| (b &&& m) := by
  apply Nat.eq_of_testBit_eq
  intro i
  simp only [Nat.testBit_land, Nat.testBit_lor]
  cases a.testBit i <;> cases b.testBit i <;> cases m.testBit i <;> rfl

lemma land_lor_absorb (x m : ℕ) : (x &&& m) ||| m = m := by
  apply Nat.eq_of_testBit_eq
  intro i
  simp only [Nat.testBit_land, Nat.testBit_lor]
  cases x.testBit i <;> cases m.testBit i <;> rfl

lemma land_self (m : ℕ) : m &&& m = m := by
  apply Nat.eq_of_testBit_eq
  intro i
  simp only [Nat.testBit_land]
  cases m.testBit i <;> rfl

/-- Extracting a mask that was just OR-ed in: `(x ||| m) &&& m = m`. -/
lemma lor_land_self (x m : ℕ) : (x ||| m) &&& m = m := by
  rw [land_lor_distrib_right, land_self, land_lor_absorb]

/-- An OR with bits disjoint from the mask is invisible to the mask. -/
lemma lor_land_of_disjoint (x c m : ℕ) (h : c &&& m = 0) : (x ||| c) &&& m = x &&& m := by
  rw [land_lor_distrib_right, h]
  simp

/-- An AND with a superset of the mask is invisible to the mask. -/
lemma land_land_of_superset (x c m : ℕ) (h : c &&& m = m) : (x &&& c) &&& m = x &&& m := by
  rw [Nat.land_assoc, h]

/-- An AND with bits disjoint from the mask clears the mask. -/
lemma land_land_of_disjoint (x c m : ℕ) (h : c &&& m = 0) : (x &&& c) &&& m = 0 := by
  rw [Nat.land_assoc, h]
  simp

/-- Reassembling a 16-bit value from its low and high bytes, as
`CPU::get_register16` does after `CPU::set_register16`. -/
lemma assemble_low_high (v : ℕ) (hv : v < 65536) :
    ((v &&& 255) &&& 255) ||| (((v >>> 8) &&& 255) <<< 8) = v := by
  apply Nat.eq_of_testBit_eq
  intro i
  have h255 : ∀ j, Nat.testBit 255 j = decide (j < 8) := by
    intro j
    have h := Nat.testBit_two_pow_sub_one 8 j
    norm_num at h
    exact h
  rw [Nat.testBit_lor, Nat.testBit_land, Nat.testBit_land, Nat.testBit_shiftLeft,
    Nat.testBit_land, Nat.testBit_shiftRight, h255, h255]
  by_cases h8 : i < 8
  · have : ¬ (i ≥ 8) := by omega
    simp [h8, this]
  · have hge : i ≥ 8 := by omega
    have hik : 8 + (i - 8) = i := by omega
    rw [hik]
    by_cases h16 : i < 16
    · have : i - 8 < 8 := by omega
      simp [h8, hge, this]
    · have hbit : v.testBit i = false := by
        apply Nat.testBit_lt_two_pow
        calc v < 65536 := hv
        _ = 2 ^ 16 := by norm_num
        _ ≤ 2 ^ i := Nat.pow_le_pow_right (by norm_num) (by omega)
      have : ¬ (i - 8 < 8) := by omega
      simp [h8, hge, this, hbit]


/-! ## Concrete machine states used by the claims -/

/-- A memory holding byte `b` at address 0 and zeros elsewhere. -/
def mem_opcode (b : Byte) : Memory := fun a => if a = 0 then b else 0

/-- A memory holding bytes `b1 b2` at the reset program counter 0x100 and
zeros elsewhere. -/
def mem_exec (b1 b2 : Byte) : Memory :=
  fun a => if a = 0x100 then b1 else if a = 0x101 then b2 else 0

/-- The CPU state of the spec's interrupt-dispatch scenario:
IME=1, SP=0xFFFE, PC=0x0200. -/
def interrupt_scenario_cpu : CPU := { CPU.new with ime := true, sp := 0xFFFE, pc := 0x200 }

/-- The memory of the spec's interrupt-dispatch scenario: IE=0x01 (VBlank
enabled) at 0xFFFF, IF=0x01 (VBlank pending) at 0xFF0F, zeros elsewhere. -/
def interrupt_scenario_mem : Memory :=
  fun a => if a = 0xFFFF then 0x01 else if a = 0xFF0F then 0x01 else 0

/-! ## C1 — interrupt dispatch -/

/-- C1: `CPU::handle_interrupts` has an empty body, so it is the identity on
the machine state. In particular, in the spec's scenario (IME=1, IE=0x01,
IF=0x01, SP=0xFFFE, PC=0x0200) the post-state still has PC=0x0200 (not the
0x0040 vector), SP=0xFFFE (nothing pushed), IME set and IF=0x01: the
dispatch the claim describes does not happen. -/
theorem handle_interrupts_is_identity :
    (∀ (cpu : CPU) (mem : Memory), CPU.handle_interrupts cpu mem = (cpu, mem)) ∧
    (CPU.handle_interrupts interrupt_scenario_cpu interrupt_scenario_mem).1.pc = 0x200 ∧
    (CPU.handle_interrupts interrupt_scenario_cpu interrupt_scenario_mem).1.pc ≠ 0x40 ∧
    (CPU.handle_interrupts interrupt_scenario_cpu interrupt_scenario_mem).1.sp = 0xFFFE ∧
    (CPU.handle_interrupts interrupt_scenario_cpu interrupt_scenario_mem).1.sp ≠ 0xFFFC ∧
    (CPU.handle_interrupts interrupt_scenario_cpu interrupt_scenario_mem).1.ime = true ∧
    (CPU.handle_interrupts interrupt_scenario_cpu interrupt_scenario_mem).2
      INTERRUPT_FLAG_ADDRESS = 0x01 ∧
    (CPU.handle_interrupts interrupt_scenario_cpu interrupt_scenario_mem).2 0xFFFC = 0 :=
  ⟨fun _ _ => rfl, rfl, by decide, rfl, by decide, rfl, rfl, rfl⟩

/-! ## C8 — writes to DIV (0xFF04) -/

/-- C8: `Memory::write_byte` has no special case for DIV: after writing `v`
to 0xFF04 the next read of 0xFF04 returns `v` itself, not 0 (and nothing
connects this write to the clock's internal `div_counter`). At `v = 0x5A`
the read returns 0x5A ≠ 0, contradicting the claim. -/
theorem div_write_not_reset :
    (∀ (mem : Memory) (v : Byte),
      (mem.write_byte 0xFF04 v).read_byte 0xFF04 = some v) ∧
    ((Memory.write_byte (fun _ => 0) 0xFF04 0x5A).read_byte 0xFF04 = some 0x5A) ∧
    (0x5A : Byte) ≠ 0 := by
  refine ⟨?_, rfl, by decide⟩
  intro mem v
  simp [Memory.read_byte, Memory.write_byte, MEMORY_SIZE]

/-! ## C4 — illegal opcodes -/

/-- C4 counterexample: the claim says decoding 0xDD fails, but 0xDD matches
the (too-loose) `CALL` pattern/mask `OpCode(0b11000100, 0b11100110)` and
decodes as a 3-byte unconditional `CALL nn`. -/
theorem decode_0xDD_is_CALL :
    SizedInstruction.decode (mem_opcode 0xDD) 0 =
      some ⟨Instruction.CALL 0, 3⟩ := rfl

/-- C4 amended: of the eleven illegal opcode bytes, the ten bytes
0xD3, 0xDB, 0xE3, 0xE4, 0xEB, 0xEC, 0xED, 0xF4, 0xFC, 0xFD fall through the
whole pattern chain and fail to decode (`none`, the `UnknownOpcode` case),
while 0xDD is caught by the `CALL` pattern/mask and decodes as `CALL nn`. -/
theorem illegal_opcodes_decode :
    SizedInstruction.decode (mem_opcode 0xD3) 0 = none ∧
    SizedInstruction.decode (mem_opcode 0xDB) 0 = none ∧
    SizedInstruction.decode (mem_opcode 0xE3) 0 = none ∧
    SizedInstruction.decode (mem_opcode 0xE4) 0 = none ∧
    SizedInstruction.decode (mem_opcode 0xEB) 0 = none ∧
    SizedInstruction.decode (mem_opcode 0xEC) 0 = none ∧
    SizedInstruction.decode (mem_opcode 0xED) 0 = none ∧
    SizedInstruction.decode (mem_opcode 0xF4) 0 = none ∧
    SizedInstruction.decode (mem_opcode 0xFC) 0 = none ∧
    SizedInstruction.decode (mem_opcode 0xFD) 0 = none ∧
    SizedInstruction.decode (mem_opcode 0xDD) 0 = some ⟨Instruction.CALL 0, 3⟩ :=
  ⟨rfl, rfl, rfl, rfl, rfl, rfl, rfl, rfl, rfl, rfl, rfl⟩


/-- Bit 0 through an OR of bit 1, in the `% 2` form `simp` produces. -/
lemma lor_two_mod_two (x : ℕ) : (x ||| 2) % 2 = x % 2 := by
  rw [← Nat.and_one_is_mod, ← Nat.and_one_is_mod]
  exact lor_land_of_disjoint x 2 1 rfl

/-! ## C5 — VBlank interrupt requests -/

/-- C5: neither of the two memory-writing paths of the PPU code
(`Graphics::set_ppu`, `Graphics::set_lyc`) ever touches bit 0 of IF — they
only ever OR in `LCD_FLAG` (bit 1). Hence the LY=143→144 transition of
`Graphics::render` (whose memory effects are exactly `set_lyc` followed by
`set_ppu`) requests no VBlank interrupt, and no frame ever requests one. -/
theorem graphics_never_requests_vblank :
    (∀ (mode : PPUMode) (mem : Memory),
      Graphics.set_ppu mode mem INTERRUPT_FLAG_ADDRESS &&& 1 =
        mem INTERRUPT_FLAG_ADDRESS &&& 1) ∧
    (∀ (ly : Nat) (mem : Memory),
      Graphics.set_lyc ly mem INTERRUPT_FLAG_ADDRESS &&& 1 =
        mem INTERRUPT_FLAG_ADDRESS &&& 1) := by
  constructor
  · intro mode mem
    cases mode <;>
      simp only [Graphics.set_ppu, Memory.write_byte, Memory.read_byte_unsafe, set_flag,
        get_flag, INTERRUPT_FLAG_ADDRESS, LCD_STATUS_ADDRESS, LCD_FLAG, MEMORY_SIZE] <;>
      norm_num <;>
      split <;>
      first
      | rfl
      | exact lor_two_mod_two _
  · intro ly mem
    simp only [Graphics.set_lyc, Memory.write_byte, Memory.read_byte_unsafe, set_flag,
      get_flag, INTERRUPT_FLAG_ADDRESS, LCD_STATUS_ADDRESS, LY_ADDRESS, LYC_ADDRESS,
      LCD_FLAG, LYC_EQ_LY_FLAG, LCY_INT_FLAG, MEMORY_SIZE]
    norm_num
    split
    · split
      · exact lor_two_mod_two _
      · rfl
    · rfl

/-! ## C7 — 16-bit register round trip -/

/-- The CPU fields other than the targeted pair, per register pair. -/
def unchanged_except (rr : Register16) (c1 c2 : CPU) : Prop :=
  match rr with
  | .SP =>
    c2.a = c1.a ∧ c2.b = c1.b ∧ c2.c = c1.c ∧ c2.d = c1.d ∧ c2.e = c1.e ∧
    c2.h = c1.h ∧ c2.l = c1.l ∧ c2.f = c1.f ∧ c2.pc = c1.pc ∧ c2.ime = c1.ime
  | .BC =>
    c2.a = c1.a ∧ c2.d = c1.d ∧ c2.e = c1.e ∧ c2.h = c1.h ∧ c2.l = c1.l ∧
    c2.f = c1.f ∧ c2.sp = c1.sp ∧ c2.pc = c1.pc ∧ c2.ime = c1.ime
  | .DE =>
    c2.a = c1.a ∧ c2.b = c1.b ∧ c2.c = c1.c ∧ c2.h = c1.h ∧ c2.l = c1.l ∧
    c2.f = c1.f ∧ c2.sp = c1.sp ∧ c2.pc = c1.pc ∧ c2.ime = c1.ime
  | .HL =>
    c2.a = c1.a ∧ c2.b = c1.b ∧ c2.c = c1.c ∧ c2.d = c1.d ∧ c2.e = c1.e ∧
    c2.f = c1.f ∧ c2.sp = c1.sp ∧ c2.pc = c1.pc ∧ c2.ime = c1.ime
  | .AF =>
    c2.b = c1.b ∧ c2.c = c1.c ∧ c2.d = c1.d ∧ c2.e = c1.e ∧ c2.h = c1.h ∧
    c2.l = c1.l ∧ c2.sp = c1.sp ∧ c2.pc = c1.pc ∧ c2.ime = c1.ime

/-- The byte-reassembly step shared by the four `bytes2word` pairs. -/
lemma get_set_pair (v : ℕ) (hv : v < 0x10000) :
    bytes2word (WordOP.get_low v) (WordOP.get_high v) = v := by
  simp only [bytes2word, WordOP.set_high, WordOP.get_low, WordOP.get_high]
  exact assemble_low_high v hv

/-- C7: for every register pair and every 16-bit value,
`set_register16` followed by `get_register16` returns the value exactly,
and no other CPU field changes. -/
theorem set_get_register16_round_trip :
    ∀ (rr : Register16) (v : Word) (cpu : CPU), v < 0x10000 →
      (cpu.set_register16 rr v).get_register16 rr = v ∧
      unchanged_except rr cpu (cpu.set_register16 rr v) := by
  intro rr v cpu hv
  cases rr
  case SP => exact ⟨rfl, rfl, rfl, rfl, rfl, rfl, rfl, rfl, rfl, rfl, rfl⟩
  case BC => exact ⟨get_set_pair v hv, rfl, rfl, rfl, rfl, rfl, rfl, rfl, rfl, rfl⟩
  case DE => exact ⟨get_set_pair v hv, rfl, rfl, rfl, rfl, rfl, rfl, rfl, rfl, rfl⟩
  case HL => exact ⟨get_set_pair v hv, rfl, rfl, rfl, rfl, rfl, rfl, rfl, rfl, rfl⟩
  case AF => exact ⟨get_set_pair v hv, rfl, rfl, rfl, rfl, rfl, rfl, rfl, rfl, rfl⟩

/-- C7 witness: the round trip at `AF` and `0xABCD`, and at `BC` and
`0x1234`, from the reset CPU. -/
theorem set_get_register16_round_trip_witness :
    ((CPU.new.set_register16 .AF 0xABCD).get_register16 .AF = 0xABCD ∧
      unchanged_except .AF CPU.new (CPU.new.set_register16 .AF 0xABCD)) ∧
    ((CPU.new.set_register16 .BC 0x1234).get_register16 .BC = 0x1234 ∧
      unchanged_except .BC CPU.new (CPU.new.set_register16 .BC 0x1234)) :=
  ⟨set_get_register16_round_trip .AF 0xABCD CPU.new (by norm_num),
   set_get_register16_round_trip .BC 0x1234 CPU.new (by norm_num)⟩


/-! ## C2 — decodable instructions whose execution is a panic -/

/-- C2: the decoder accepts many instructions for which `CPU::execute` has
no match arm, so executing them hits the catch-all
`panic!("Unimplemented instruction")` (`none`), not a state transition.
Concretely: ADC/SBC/CP/AND on registers (0x88/0x98/0xB8/0xA0), `INC (HL)`
(0x34), `RET cc` (0xC0), `RETI` (0xD9), `RST` (0xC7), `JP cc,nn` (0xC2),
`HALT` (0x76), `DAA` (0x27) and the CB-prefixed rotates/shifts (CB 00)
all decode from the reset PC but execute to a panic; and *every* instance
of those shapes (any register / condition / operand and any decoded size)
falls into the catch-all arm. -/
theorem decodable_but_unimplemented :
    (SizedInstruction.decode (mem_exec 0x88 0) 0x100 = some ⟨Instruction.ADC_R .B, 1⟩ ∧
      CPU.execute CPU.new (mem_exec 0x88 0) = none) ∧
    (SizedInstruction.decode (mem_exec 0x98 0) 0x100 = some ⟨Instruction.SBC_R .B, 1⟩ ∧
      CPU.execute CPU.new (mem_exec 0x98 0) = none) ∧
    (SizedInstruction.decode (mem_exec 0xB8 0) 0x100 = some ⟨Instruction.CP_R .B, 1⟩ ∧
      CPU.execute CPU.new (mem_exec 0xB8 0) = none) ∧
    (SizedInstruction.decode (mem_exec 0xA0 0) 0x100 = some ⟨Instruction.AND_R .B, 1⟩ ∧
      CPU.execute CPU.new (mem_exec 0xA0 0) = none) ∧
    (SizedInstruction.decode (mem_exec 0x34 0) 0x100 = some ⟨Instruction.INC_HL, 1⟩ ∧
      CPU.execute CPU.new (mem_exec 0x34 0) = none) ∧
    (SizedInstruction.decode (mem_exec 0xC0 0) 0x100 =
        some ⟨Instruction.RET_CC .NonZero, 1⟩ ∧
      CPU.execute CPU.new (mem_exec 0xC0 0) = none) ∧
    (SizedInstruction.decode (mem_exec 0xD9 0) 0x100 = some ⟨Instruction.RETI, 1⟩ ∧
      CPU.execute CPU.new (mem_exec 0xD9 0) = none) ∧
    (SizedInstruction.decode (mem_exec 0xC7 0) 0x100 = some ⟨Instruction.RST 0, 1⟩ ∧
      CPU.execute CPU.new (mem_exec 0xC7 0) = none) ∧
    (SizedInstruction.decode (mem_exec 0xC2 0) 0x100 =
        some ⟨Instruction.JP_CC_NN .NonZero 0, 3⟩ ∧
      CPU.execute CPU.new (mem_exec 0xC2 0) = none) ∧
    (SizedInstruction.decode (mem_exec 0x76 0) 0x100 = some ⟨Instruction.HALT, 1⟩ ∧
      CPU.execute CPU.new (mem_exec 0x76 0) = none) ∧
    (SizedInstruction.decode (mem_exec 0x27 0) 0x100 = some ⟨Instruction.DAA, 1⟩ ∧
      CPU.execute CPU.new (mem_exec 0x27 0) = none) ∧
    (SizedInstruction.decode (mem_exec 0xCB 0x00) 0x100 = some ⟨Instruction.RLC .B, 2⟩ ∧
      CPU.execute CPU.new (mem_exec 0xCB 0x00) = none) ∧
    (∀ (cpu : CPU) (mem : Memory) (r : Register) (sz : Word),
      CPU.exec_instruction cpu mem ⟨Instruction.ADC_R r, sz⟩ = none ∧
      CPU.exec_instruction cpu mem ⟨Instruction.SBC_R r, sz⟩ = none ∧
      CPU.exec_instruction cpu mem ⟨Instruction.CP_R r, sz⟩ = none ∧
      CPU.exec_instruction cpu mem ⟨Instruction.AND_R r, sz⟩ = none ∧
      CPU.exec_instruction cpu mem ⟨Instruction.RLC r, sz⟩ = none ∧
      CPU.exec_instruction cpu mem ⟨Instruction.RRC r, sz⟩ = none ∧
      CPU.exec_instruction cpu mem ⟨Instruction.RL r, sz⟩ = none ∧
      CPU.exec_instruction cpu mem ⟨Instruction.RR r, sz⟩ = none ∧
      CPU.exec_instruction cpu mem ⟨Instruction.SLA r, sz⟩ = none ∧
      CPU.exec_instruction cpu mem ⟨Instruction.SRA r, sz⟩ = none ∧
      CPU.exec_instruction cpu mem ⟨Instruction.SWAP r, sz⟩ = none ∧
      CPU.exec_instruction cpu mem ⟨Instruction.SRL r, sz⟩ = none) ∧
    (∀ (cpu : CPU) (mem : Memory) (cc : Condition) (nn : Address) (sz : Word),
      CPU.exec_instruction cpu mem ⟨Instruction.RET_CC cc, sz⟩ = none ∧
      CPU.exec_instruction cpu mem ⟨Instruction.JP_CC_NN cc nn, sz⟩ = none) ∧
    (∀ (cpu : CPU) (mem : Memory) (n : Byte) (sz : Word),
      CPU.exec_instruction cpu mem ⟨Instruction.RST n, sz⟩ = none) ∧
    (∀ (cpu : CPU) (mem : Memory) (sz : Word),
      CPU.exec_instruction cpu mem ⟨Instruction.INC_HL, sz⟩ = none ∧
      CPU.exec_instruction cpu mem ⟨Instruction.RETI, sz⟩ = none ∧
      CPU.exec_instruction cpu mem ⟨Instruction.HALT, sz⟩ = none ∧
      CPU.exec_instruction cpu mem ⟨Instruction.DAA, sz⟩ = none ∧
      CPU.exec_instruction cpu mem ⟨Instruction.RLC_HL, sz⟩ = none ∧
      CPU.exec_instruction cpu mem ⟨Instruction.RRC_HL, sz⟩ = none ∧
      CPU.exec_instruction cpu mem ⟨Instruction.RL_HL, sz⟩ = none ∧
      CPU.exec_instruction cpu mem ⟨Instruction.RR_HL, sz⟩ = none ∧
      CPU.exec_instruction cpu mem ⟨Instruction.SLA_HL, sz⟩ = none ∧
      CPU.exec_instruction cpu mem ⟨Instruction.SRA_HL, sz⟩ = none ∧
      CPU.exec_instruction cpu mem ⟨Instruction.SWAP_HL, sz⟩ = none ∧
      CPU.exec_instruction cpu mem ⟨Instruction.SRL_HL, sz⟩ = none) :=
  ⟨⟨rfl, rfl⟩, ⟨rfl, rfl⟩, ⟨rfl, rfl⟩, ⟨rfl, rfl⟩, ⟨rfl, rfl⟩, ⟨rfl, rfl⟩,
   ⟨rfl, rfl⟩, ⟨rfl, rfl⟩, ⟨rfl, rfl⟩, ⟨rfl, rfl⟩, ⟨rfl, rfl⟩, ⟨rfl, rfl⟩,
   fun _ _ _ _ => ⟨rfl, rfl, rfl, rfl, rfl, rfl, rfl, rfl, rfl, rfl, rfl, rfl⟩,
   fun _ _ _ _ _ => ⟨rfl, rfl⟩,
   fun _ _ _ _ => rfl,
   fun _ _ _ => ⟨rfl, rfl, rfl, rfl, rfl, rfl, rfl, rfl, rfl, rfl, rfl, rfl⟩⟩

/-! ## C9 — ROM loading -/

/-- The ROM image used to refute C9: 257 copies of 0xAA. -/
def rom_c9 : List Byte := List.replicate 257 0xAA

set_option maxRecDepth 8000 in
/-- C9 counterexample: after `GameBoy::load_rom` of a 257-byte ROM whose
every byte is 0xAA, memory address 0 still holds 0 (the load starts at
offset 0x100 and copies `rom[0x100..]`, not the start of the image), while
the claim demands `memory[0] = rom[0] = 0xAA`. -/
theorem load_rom_drops_first_0x100_bytes :
    (GameBoy.load_rom (fun _ => 0) rom_c9).map (fun m => m 0) = some 0 ∧
    rom_c9.getD 0 0 = 0xAA ∧ (0 : Byte) ≠ 0xAA :=
  ⟨rfl, rfl, by decide⟩

/-- C9 amended: `GameBoy::load_rom` loads at offset 0x100: when
`0x100 ≤ rom.len() ≤ 0x10000` it succeeds and produces the memory holding
`rom[i]` at address `i` for `0x100 ≤ i < rom.len()` and the previous
contents everywhere else (addresses below 0x100 included); when
`rom.len() < 0x100` the slice indexing panics instead of succeeding. -/
theorem load_rom_offset_0x100 :
    (∀ (rom : List Byte) (mem : Memory),
      0x100 ≤ rom.length → rom.length ≤ 0x10000 →
      GameBoy.load_rom mem rom =
        some (fun a => if 0x100 ≤ a ∧ a < rom.length then rom.getD a 0 else mem a)) ∧
    (∀ (rom : List Byte) (mem : Memory),
      rom.length < 0x100 → GameBoy.load_rom mem rom = none) := by
  constructor
  · intro rom mem h1 h2
    unfold GameBoy.load_rom Memory.load_rom_offset
    rw [if_pos ⟨h1, h2⟩]
  · intro rom mem h
    unfold GameBoy.load_rom Memory.load_rom_offset
    rw [if_neg]
    exact fun hc => (Nat.not_le.mpr h) hc.1

set_option maxRecDepth 8000 in
/-- C9 witness: the amended load at a 300-byte ROM of sevens (succeeds,
placing bytes only from 0x100 up), and at the empty ROM (panics). -/
theorem load_rom_offset_0x100_witness :
    GameBoy.load_rom (fun _ => 0) (List.replicate 300 7) =
      some (fun a =>
        if 0x100 ≤ a ∧ a < (List.replicate 300 7 : List Byte).length
        then (List.replicate 300 7 : List Byte).getD a 0 else 0) ∧
    GameBoy.load_rom (fun _ => 0) ([] : List Byte) = none :=
  ⟨load_rom_offset_0x100.1 (List.replicate 300 7) (fun _ => 0) (by decide) (by decide),
   load_rom_offset_0x100.2 [] (fun _ => 0) (by decide)⟩

/-! ## C10 — joypad presses -/

/-- The joypad latch with the A-button key held. -/
def joypad_held : Joypad := { last_key := some Keycode.A }

/-- C10 counterexample: with the A key already held, a fresh press of W is
ignored outright — the latch keeps `Some(A)`, memory is unchanged, and the
Joypad interrupt bit (bit 4 of IF) stays 0 — contradicting "every press
event causes the Joypad interrupt request bit to be set, regardless of
which other buttons are currently held". -/
theorem press_while_held_is_ignored :
    Joypad.handle_button joypad_held Keycode.W true (fun _ => 0) =
      (joypad_held, (fun _ => 0)) ∧
    (Joypad.handle_button joypad_held Keycode.W true (fun _ => 0)).2
      INTERRUPT_FLAG_ADDRESS &&& JOYPAD_FLAG = 0 :=
  ⟨rfl, rfl⟩

/-- C10 amended: a press of a recognized button is latched — and the Joypad
interrupt (bit 4 of IF) requested — exactly when no button is currently
latched (`last_key = None`); group selection at 0xFF00 is never consulted.
A press while any button is latched is ignored entirely. -/
theorem press_sets_joypad_interrupt :
    (∀ (kc : Keycode) (mem : Memory), kc ≠ Keycode.Other →
      (Joypad.handle_button Joypad.new kc true mem).1 = { last_key := some kc } ∧
      (Joypad.handle_button Joypad.new kc true mem).2 INTERRUPT_FLAG_ADDRESS &&&
        JOYPAD_FLAG = JOYPAD_FLAG ∧
      (∀ a, a ≠ INTERRUPT_FLAG_ADDRESS →
        (Joypad.handle_button Joypad.new kc true mem).2 a = mem a)) ∧
    (∀ (k0 kc : Keycode) (mem : Memory),
      Joypad.handle_button { last_key := some k0 } kc true mem =
        ({ last_key := some k0 }, mem)) := by
  constructor
  · intro kc mem hkc
    have hbit : ∀ x : ℕ, (x ||| JOYPAD_FLAG) &&& JOYPAD_FLAG = JOYPAD_FLAG :=
      fun x => lor_land_self x JOYPAD_FLAG
    cases kc <;>
      first
      | exact absurd rfl hkc
      | exact ⟨rfl, hbit _, fun a ha => by
          simp only [Joypad.handle_button, Joypad.new, Memory.write_byte,
            Memory.read_byte_unsafe, set_flag]
          rw [if_neg]
          intro hc
          exact ha hc.2⟩
  · intro k0 kc mem
    cases kc <;> rfl

/-- C10 witness: the amended behavior at a fresh press of W on all-zero
memory, and at a press of W while A is latched. -/
theorem press_sets_joypad_interrupt_witness :
    ((Joypad.handle_button Joypad.new Keycode.W true (fun _ => 0)).1 =
        { last_key := some Keycode.W } ∧
      (Joypad.handle_button Joypad.new Keycode.W true (fun _ => 0)).2
        INTERRUPT_FLAG_ADDRESS &&& JOYPAD_FLAG = JOYPAD_FLAG ∧
      (∀ a, a ≠ INTERRUPT_FLAG_ADDRESS →
        (Joypad.handle_button Joypad.new Keycode.W true (fun _ => 0)).2 a = 0)) ∧
    Joypad.handle_button { last_key := some Keycode.A } Keycode.W true (fun _ => 0) =
      ({ last_key := some Keycode.A }, (fun _ => 0)) :=
  ⟨press_sets_joypad_interrupt.1 Keycode.W (fun _ => 0) (by simp),
   press_sets_joypad_interrupt.2 Keycode.A Keycode.W (fun _ => 0)⟩


/-! ## C6 — 8-bit ADD -/

/-- C6: every 8-bit `ADD` (register form on a plain register, or immediate
form) stores the wrapped sum in A, advances PC by the instruction size, and
sets the flags exactly as the spec says: Z iff the wrapped result is 0,
N = 0, H iff `(A&0xF)+(b&0xF) > 0xF`, C iff `A+b > 0xFF`. In particular,
running opcode 0x80 (`ADD A,B`) from reset with A=0x0F, B=0x01 yields
A=0x10 and F=0x20. -/
theorem add_sets_flags_exactly :
    (∀ (cpu : CPU) (mem : Memory) (r : Register) (b : Byte) (sz : Word),
      cpu.get_register r = some b →
      ∃ cpu2, CPU.exec_instruction cpu mem ⟨Instruction.ADD_R r, sz⟩ = some (cpu2, mem) ∧
        cpu2.a = (cpu.a + b) % 256 ∧
        cpu2.pc = word_add cpu.pc sz ∧
        (cpu2.get_flag CPU.ZERO_FLAG = true ↔ (cpu.a + b) % 256 = 0) ∧
        cpu2.get_flag CPU.SUBTRACT_FLAG = false ∧
        (cpu2.get_flag CPU.HALF_CARRY_FLAG = true ↔ 0xF < (cpu.a &&& 0xF) + (b &&& 0xF)) ∧
        (cpu2.get_flag CPU.CARRY_FLAG = true ↔ 0xFF < cpu.a + b)) ∧
    (∀ (cpu : CPU) (mem : Memory) (n : Byte) (sz : Word),
      ∃ cpu2, CPU.exec_instruction cpu mem ⟨Instruction.ADD_N n, sz⟩ = some (cpu2, mem) ∧
        cpu2.a = (cpu.a + n) % 256 ∧
        cpu2.pc = word_add cpu.pc sz ∧
        (cpu2.get_flag CPU.ZERO_FLAG = true ↔ (cpu.a + n) % 256 = 0) ∧
        cpu2.get_flag CPU.SUBTRACT_FLAG = false ∧
        (cpu2.get_flag CPU.HALF_CARRY_FLAG = true ↔ 0xF < (cpu.a &&& 0xF) + (n &&& 0xF)) ∧
        (cpu2.get_flag CPU.CARRY_FLAG = true ↔ 0xFF < cpu.a + n)) ∧
    CPU.execute { CPU.new with a := 0x0F, b := 0x01 } (mem_exec 0x80 0) =
      some ({ CPU.new with a := 0x10, b := 0x01, f := 0x20, pc := 0x101 }, mem_exec 0x80 0) := by
  refine ⟨?_, ?_, rfl⟩
  · intro cpu mem r b sz hr
    simp only [CPU.exec_instruction, hr]
    refine ⟨_, rfl, rfl, ?_, ?_, ?_, ?_, ?_⟩ <;>
      by_cases hz : (cpu.a + b) % 256 = 0 <;>
      by_cases hh : 0xF < (cpu.a &&& 0xF) + (b &&& 0xF) <;>
      by_cases hc : 0xFF < cpu.a + b <;>
      simp +decide [overflowing_add, CPU.zero_flag, CPU.half_carry_flag_add, CPU.set_flag,
        CPU.reset_flag, CPU.get_flag, CPU.ZERO_FLAG, CPU.SUBTRACT_FLAG, CPU.HALF_CARRY_FLAG,
        CPU.CARRY_FLAG, hz, hh, hc, lor_land_of_disjoint, land_land_of_superset,
        land_land_of_disjoint, lor_land_self]
  · intro cpu mem n sz
    simp only [CPU.exec_instruction]
    refine ⟨_, rfl, rfl, ?_, ?_, ?_, ?_, ?_⟩ <;>
      by_cases hz : (cpu.a + n) % 256 = 0 <;>
      by_cases hh : 0xF < (cpu.a &&& 0xF) + (n &&& 0xF) <;>
      by_cases hc : 0xFF < cpu.a + n <;>
      simp +decide [overflowing_add, CPU.zero_flag, CPU.half_carry_flag_add, CPU.set_flag,
        CPU.reset_flag, CPU.get_flag, CPU.ZERO_FLAG, CPU.SUBTRACT_FLAG, CPU.HALF_CARRY_FLAG,
        CPU.CARRY_FLAG, hz, hh, hc, lor_land_of_disjoint, land_land_of_superset,
        land_land_of_disjoint, lor_land_self]

/-- C6 witness: the register form at `ADD A,B` with A=0x0F, B=0x01 (the
spec's half-carry scenario), and the immediate form at `ADD A,0x01`. -/
theorem add_sets_flags_exactly_witness :
    (∃ cpu2, CPU.exec_instruction { CPU.new with a := 0x0F, b := 0x01 } (mem_exec 0x80 0)
        ⟨Instruction.ADD_R .B, 1⟩ = some (cpu2, mem_exec 0x80 0) ∧
      cpu2.a = (0x0F + 0x01) % 256 ∧
      cpu2.pc = word_add 0x100 1 ∧
      (cpu2.get_flag CPU.ZERO_FLAG = true ↔ (0x0F + 0x01) % 256 = 0) ∧
      cpu2.get_flag CPU.SUBTRACT_FLAG = false ∧
      (cpu2.get_flag CPU.HALF_CARRY_FLAG = true ↔ 0xF < (0x0F &&& 0xF) + (0x01 &&& 0xF)) ∧
      (cpu2.get_flag CPU.CARRY_FLAG = true ↔ 0xFF < 0x0F + 0x01)) ∧
    (∃ cpu2, CPU.exec_instruction { CPU.new with a := 0x0F } (mem_exec 0xC6 0x01)
        ⟨Instruction.ADD_N 0x01, 2⟩ = some (cpu2, mem_exec 0xC6 0x01) ∧
      cpu2.a = (0x0F + 0x01) % 256 ∧
      cpu2.pc = word_add 0x100 2 ∧
      (cpu2.get_flag CPU.ZERO_FLAG = true ↔ (0x0F + 0x01) % 256 = 0) ∧
      cpu2.get_flag CPU.SUBTRACT_FLAG = false ∧
      (cpu2.get_flag CPU.HALF_CARRY_FLAG = true ↔ 0xF < (0x0F &&& 0xF) + (0x01 &&& 0xF)) ∧
      (cpu2.get_flag CPU.CARRY_FLAG = true ↔ 0xFF < 0x0F + 0x01)) :=
  ⟨add_sets_flags_exactly.1 { CPU.new with a := 0x0F, b := 0x01 } (mem_exec 0x80 0)
      .B 0x01 1 rfl,
   add_sets_flags_exactly.2.1 { CPU.new with a := 0x0F } (mem_exec 0xC6 0x01) 0x01 2⟩


/-! ## C3 — the F-low-nibble invariant -/

/-- Instructions that never route a 16-bit write to the `AF` pair. The
decoder only ever builds `LD rr,nn` / `INC rr` / `DEC rr` from the
`sp = true` register-pair table, which has no `AF` entry. -/
def af_safe : Instruction → Prop
  | .LD_RR_NN rr _ => rr ≠ .AF
  | .INC_RR rr => rr ≠ .AF
  | .DEC_RR rr => rr ≠ .AF
  | _ => True

/-- The `sp = true` register-pair table never yields `AF`. -/
lemma get_rr_true_ne_AF (code : Byte) : Register16.get_rr code true ≠ .AF := by
  unfold Register16.get_rr ByteOP.mask
  have h : code &&& 0b11 < 4 := Nat.lt_succ_of_le Nat.and_le_right
  interval_cases h3 : (code &&& 0b11) <;> simp

/-- CB-prefixed decoding only produces rotate/shift/bit instructions,
which are all `af_safe`. -/
lemma decode_cb_af_safe (mem : Memory) (addr : Address) (si : SizedInstruction)
    (h : SizedInstruction.decode_cb mem addr = some si) : af_safe si.instruction := by
  unfold SizedInstruction.decode_cb at h
  repeat' split at h
  all_goals try exact Option.noConfusion h
  all_goals (injection h with h2; subst h2)
  all_goals dsimp only
  all_goals try trivial
  all_goals (split <;> trivial)

/-- Everything the decoder produces is `af_safe`: in particular a decoded
`LD rr,nn` / `INC rr` / `DEC rr` never targets `AF`. -/
lemma decode_af_safe (mem : Memory) (addr : Address) (si : SizedInstruction)
    (h : SizedInstruction.decode mem addr = some si) : af_safe si.instruction := by
  unfold SizedInstruction.decode at h
  rcases hob : mem.read_byte addr with _ | opcode
  · rw [hob] at h
    exact Option.noConfusion h
  · rw [hob] at h
    dsimp only at h
    by_cases c1 : SizedInstruction.NOP.matches opcode = true
    · rw [if_pos c1] at h
      repeat' split at h
      all_goals try exact Option.noConfusion h
      all_goals (injection h with h2; subst h2)
      all_goals dsimp only
      all_goals try trivial
      all_goals try (exact get_rr_true_ne_AF _)
      all_goals try (split <;> first | trivial | exact get_rr_true_ne_AF _)
    · rw [if_neg c1] at h
      by_cases c2 : SizedInstruction.LD1.matches opcode = true
      · rw [if_pos c2] at h
        repeat' split at h
        all_goals try exact Option.noConfusion h
        all_goals (injection h with h2; subst h2)
        all_goals dsimp only
        all_goals try trivial
        all_goals try (exact get_rr_true_ne_AF _)
        all_goals try (split <;> first | trivial | exact get_rr_true_ne_AF _)
      · rw [if_neg c2] at h
        by_cases c3 : SizedInstruction.LD2.matches opcode = true
        · rw [if_pos c3] at h
          repeat' split at h
          all_goals try exact Option.noConfusion h
          all_goals (injection h with h2; subst h2)
          all_goals dsimp only
          all_goals try trivial
          all_goals try (exact get_rr_true_ne_AF _)
          all_goals try (split <;> first | trivial | exact get_rr_true_ne_AF _)
        · rw [if_neg c3] at h
          by_cases c4 : SizedInstruction.LD3.matches opcode = true
          · rw [if_pos c4] at h
            repeat' split at h
            all_goals try exact Option.noConfusion h
            all_goals (injection h with h2; subst h2)
            all_goals dsimp only
            all_goals try trivial
            all_goals try (exact get_rr_true_ne_AF _)
            all_goals try (split <;> first | trivial | exact get_rr_true_ne_AF _)
          · rw [if_neg c4] at h
            by_cases c5 : SizedInstruction.LD4.matches opcode = true
            · rw [if_pos c5] at h
              repeat' split at h
              all_goals try exact Option.noConfusion h
              all_goals (injection h with h2; subst h2)
              all_goals dsimp only
              all_goals try trivial
              all_goals try (exact get_rr_true_ne_AF _)
              all_goals try (split <;> first | trivial | exact get_rr_true_ne_AF _)
            · rw [if_neg c5] at h
              by_cases c6 : SizedInstruction.LD5.matches opcode = true
              · rw [if_pos c6] at h
                repeat' split at h
                all_goals try exact Option.noConfusion h
                all_goals (injection h with h2; subst h2)
                all_goals dsimp only
                all_goals try trivial
                all_goals try (exact get_rr_true_ne_AF _)
                all_goals try (split <;> first | trivial | exact get_rr_true_ne_AF _)
              · rw [if_neg c6] at h
                by_cases c7 : SizedInstruction.LD6.matches opcode = true
                · rw [if_pos c7] at h
                  repeat' split at h
                  all_goals try exact Option.noConfusion h
                  all_goals (injection h with h2; subst h2)
                  all_goals dsimp only
                  all_goals try trivial
                  all_goals try (exact get_rr_true_ne_AF _)
                  all_goals try (split <;> first | trivial | exact get_rr_true_ne_AF _)
                · rw [if_neg c7] at h
                  by_cases c8 : SizedInstruction.LD7.matches opcode = true
                  · rw [if_pos c8] at h
                    repeat' split at h
                    all_goals try exact Option.noConfusion h
                    all_goals (injection h with h2; subst h2)
                    all_goals dsimp only
                    all_goals try trivial
                    all_goals try (exact get_rr_true_ne_AF _)
                    all_goals try (split <;> first | trivial | exact get_rr_true_ne_AF _)
                  · rw [if_neg c8] at h
                    by_cases c9 : SizedInstruction.LD8.matches opcode = true
                    · rw [if_pos c9] at h
                      repeat' split at h
                      all_goals try exact Option.noConfusion h
                      all_goals (injection h with h2; subst h2)
                      all_goals dsimp only
                      all_goals try trivial
                      all_goals try (exact get_rr_true_ne_AF _)
                      all_goals try (split <;> first | trivial | exact get_rr_true_ne_AF _)
                    · rw [if_neg c9] at h
                      by_cases c10 : SizedInstruction.LD9.matches opcode = true
                      · rw [if_pos c10] at h
                        repeat' split at h
                        all_goals try exact Option.noConfusion h
                        all_goals (injection h with h2; subst h2)
                        all_goals dsimp only
                        all_goals try trivial
                        all_goals try (exact get_rr_true_ne_AF _)
                        all_goals try (split <;> first | trivial | exact get_rr_true_ne_AF _)
                      · rw [if_neg c10] at h
                        by_cases c11 : SizedInstruction.PUSH_POP.matches opcode = true
                        · rw [if_pos c11] at h
                          repeat' split at h
                          all_goals try exact Option.noConfusion h
                          all_goals (injection h with h2; subst h2)
                          all_goals dsimp only
                          all_goals try trivial
                          all_goals try (exact get_rr_true_ne_AF _)
                          all_goals try (split <;> first | trivial | exact get_rr_true_ne_AF _)
                        · rw [if_neg c11] at h
                          by_cases c12 : SizedInstruction.ARITH_OP_R.matches opcode = true
                          · rw [if_pos c12] at h
                            repeat' split at h
                            all_goals try exact Option.noConfusion h
                            all_goals (injection h with h2; subst h2)
                            all_goals dsimp only
                            all_goals try trivial
                            all_goals try (exact get_rr_true_ne_AF _)
                            all_goals try (split <;> first | trivial | exact get_rr_true_ne_AF _)
                          · rw [if_neg c12] at h
                            by_cases c13 : SizedInstruction.ARITH_OP_C_R.matches opcode = true
                            · rw [if_pos c13] at h
                              repeat' split at h
                              all_goals try exact Option.noConfusion h
                              all_goals (injection h with h2; subst h2)
                              all_goals dsimp only
                              all_goals try trivial
                              all_goals try (exact get_rr_true_ne_AF _)
                              all_goals try (split <;> first | trivial | exact get_rr_true_ne_AF _)
                            · rw [if_neg c13] at h
                              by_cases c14 : SizedInstruction.ARITH_OP_N.matches opcode = true
                              · rw [if_pos c14] at h
                                repeat' split at h
                                all_goals try exact Option.noConfusion h
                                all_goals (injection h with h2; subst h2)
                                all_goals dsimp only
                                all_goals try trivial
                                all_goals try (exact get_rr_true_ne_AF _)
                                all_goals try (split <;> first | trivial | exact get_rr_true_ne_AF _)
                              · rw [if_neg c14] at h
                                by_cases c15 : SizedInstruction.ARITH_OP_C_N.matches opcode = true
                                · rw [if_pos c15] at h
                                  repeat' split at h
                                  all_goals try exact Option.noConfusion h
                                  all_goals (injection h with h2; subst h2)
                                  all_goals dsimp only
                                  all_goals try trivial
                                  all_goals try (exact get_rr_true_ne_AF _)
                                  all_goals try (split <;> first | trivial | exact get_rr_true_ne_AF _)
                                · rw [if_neg c15] at h
                                  by_cases c16 : SizedInstruction.INC_DEC_R.matches opcode = true
                                  · rw [if_pos c16] at h
                                    repeat' split at h
                                    all_goals try exact Option.noConfusion h
                                    all_goals (injection h with h2; subst h2)
                                    all_goals dsimp only
                                    all_goals try trivial
                                    all_goals try (exact get_rr_true_ne_AF _)
                                    all_goals try (split <;> first | trivial | exact get_rr_true_ne_AF _)
                                  · rw [if_neg c16] at h
                                    by_cases c17 : SizedInstruction.CARRY.matches opcode = true
                                    · rw [if_pos c17] at h
                                      repeat' split at h
                                      all_goals try exact Option.noConfusion h
                                      all_goals (injection h with h2; subst h2)
                                      all_goals dsimp only
                                      all_goals try trivial
                                      all_goals try (exact get_rr_true_ne_AF _)
                                      all_goals try (split <;> first | trivial | exact get_rr_true_ne_AF _)
                                    · rw [if_neg c17] at h
                                      by_cases c18 : SizedInstruction.INC_DEC_RR.matches opcode = true
                                      · rw [if_pos c18] at h
                                        repeat' split at h
                                        all_goals try exact Option.noConfusion h
                                        all_goals (injection h with h2; subst h2)
                                        all_goals dsimp only
                                        all_goals try trivial
                                        all_goals try (exact get_rr_true_ne_AF _)
                                        all_goals try (split <;> first | trivial | exact get_rr_true_ne_AF _)
                                      · rw [if_neg c18] at h
                                        by_cases c19 : SizedInstruction.CALL.matches opcode = true
                                        · rw [if_pos c19] at h
                                          repeat' split at h
                                          all_goals try exact Option.noConfusion h
                                          all_goals (injection h with h2; subst h2)
                                          all_goals dsimp only
                                          all_goals try trivial
                                          all_goals try (exact get_rr_true_ne_AF _)
                                          all_goals try (split <;> first | trivial | exact get_rr_true_ne_AF _)
                                        · rw [if_neg c19] at h
                                          by_cases c20 : SizedInstruction.RET.matches opcode = true
                                          · rw [if_pos c20] at h
                                            repeat' split at h
                                            all_goals try exact Option.noConfusion h
                                            all_goals (injection h with h2; subst h2)
                                            all_goals dsimp only
                                            all_goals try trivial
                                            all_goals try (exact get_rr_true_ne_AF _)
                                            all_goals try (split <;> first | trivial | exact get_rr_true_ne_AF _)
                                          · rw [if_neg c20] at h
                                            by_cases c21 : SizedInstruction.RET_CC.matches opcode = true
                                            · rw [if_pos c21] at h
                                              repeat' split at h
                                              all_goals try exact Option.noConfusion h
                                              all_goals (injection h with h2; subst h2)
                                              all_goals dsimp only
                                              all_goals try trivial
                                              all_goals try (exact get_rr_true_ne_AF _)
                                              all_goals try (split <;> first | trivial | exact get_rr_true_ne_AF _)
                                            · rw [if_neg c21] at h
                                              by_cases c22 : SizedInstruction.RETI.matches opcode = true
                                              · rw [if_pos c22] at h
                                                repeat' split at h
                                                all_goals try exact Option.noConfusion h
                                                all_goals (injection h with h2; subst h2)
                                                all_goals dsimp only
                                                all_goals try trivial
                                                all_goals try (exact get_rr_true_ne_AF _)
                                                all_goals try (split <;> first | trivial | exact get_rr_true_ne_AF _)
                                              · rw [if_neg c22] at h
                                                by_cases c23 : SizedInstruction.RST.matches opcode = true
                                                · rw [if_pos c23] at h
                                                  repeat' split at h
                                                  all_goals try exact Option.noConfusion h
                                                  all_goals (injection h with h2; subst h2)
                                                  all_goals dsimp only
                                                  all_goals try trivial
                                                  all_goals try (exact get_rr_true_ne_AF _)
                                                  all_goals try (split <;> first | trivial | exact get_rr_true_ne_AF _)
                                                · rw [if_neg c23] at h
                                                  by_cases c24 : SizedInstruction.JP.matches opcode = true
                                                  · rw [if_pos c24] at h
                                                    repeat' split at h
                                                    all_goals try exact Option.noConfusion h
                                                    all_goals (injection h with h2; subst h2)
                                                    all_goals dsimp only
                                                    all_goals try trivial
                                                    all_goals try (exact get_rr_true_ne_AF _)
                                                    all_goals try (split <;> first | trivial | exact get_rr_true_ne_AF _)
                                                  · rw [if_neg c24] at h
                                                    by_cases c25 : SizedInstruction.JP_HL.matches opcode = true
                                                    · rw [if_pos c25] at h
                                                      repeat' split at h
                                                      all_goals try exact Option.noConfusion h
                                                      all_goals (injection h with h2; subst h2)
                                                      all_goals dsimp only
                                                      all_goals try trivial
                                                      all_goals try (exact get_rr_true_ne_AF _)
                                                      all_goals try (split <;> first | trivial | exact get_rr_true_ne_AF _)
                                                    · rw [if_neg c25] at h
                                                      by_cases c26 : SizedInstruction.JP_CC.matches opcode = true
                                                      · rw [if_pos c26] at h
                                                        repeat' split at h
                                                        all_goals try exact Option.noConfusion h
                                                        all_goals (injection h with h2; subst h2)
                                                        all_goals dsimp only
                                                        all_goals try trivial
                                                        all_goals try (exact get_rr_true_ne_AF _)
                                                        all_goals try (split <;> first | trivial | exact get_rr_true_ne_AF _)
                                                      · rw [if_neg c26] at h
                                                        by_cases c27 : SizedInstruction.JR.matches opcode = true
                                                        · rw [if_pos c27] at h
                                                          repeat' split at h
                                                          all_goals try exact Option.noConfusion h
                                                          all_goals (injection h with h2; subst h2)
                                                          all_goals dsimp only
                                                          all_goals try trivial
                                                          all_goals try (exact get_rr_true_ne_AF _)
                                                          all_goals try (split <;> first | trivial | exact get_rr_true_ne_AF _)
                                                        · rw [if_neg c27] at h
                                                          by_cases c28 : SizedInstruction.JR_CC.matches opcode = true
                                                          · rw [if_pos c28] at h
                                                            repeat' split at h
                                                            all_goals try exact Option.noConfusion h
                                                            all_goals (injection h with h2; subst h2)
                                                            all_goals dsimp only
                                                            all_goals try trivial
                                                            all_goals try (exact get_rr_true_ne_AF _)
                                                            all_goals try (split <;> first | trivial | exact get_rr_true_ne_AF _)
                                                          · rw [if_neg c28] at h
                                                            by_cases c29 : SizedInstruction.DAA.matches opcode = true
                                                            · rw [if_pos c29] at h
                                                              repeat' split at h
                                                              all_goals try exact Option.noConfusion h
                                                              all_goals (injection h with h2; subst h2)
                                                              all_goals dsimp only
                                                              all_goals try trivial
                                                              all_goals try (exact get_rr_true_ne_AF _)
                                                              all_goals try (split <;> first | trivial | exact get_rr_true_ne_AF _)
                                                            · rw [if_neg c29] at h
                                                              by_cases c30 : SizedInstruction.ADD_HL_RR.matches opcode = true
                                                              · rw [if_pos c30] at h
                                                                repeat' split at h
                                                                all_goals try exact Option.noConfusion h
                                                                all_goals (injection h with h2; subst h2)
                                                                all_goals dsimp only
                                                                all_goals try trivial
                                                                all_goals try (exact get_rr_true_ne_AF _)
                                                                all_goals try (split <;> first | trivial | exact get_rr_true_ne_AF _)
                                                              · rw [if_neg c30] at h
                                                                by_cases c31 : SizedInstruction.ADD_SP_E.matches opcode = true
                                                                · rw [if_pos c31] at h
                                                                  repeat' split at h
                                                                  all_goals try exact Option.noConfusion h
                                                                  all_goals (injection h with h2; subst h2)
                                                                  all_goals dsimp only
                                                                  all_goals try trivial
                                                                  all_goals try (exact get_rr_true_ne_AF _)
                                                                  all_goals try (split <;> first | trivial | exact get_rr_true_ne_AF _)
                                                                · rw [if_neg c31] at h
                                                                  by_cases c32 : SizedInstruction.ROT_ACC.matches opcode = true
                                                                  · rw [if_pos c32] at h
                                                                    repeat' split at h
                                                                    all_goals try exact Option.noConfusion h
                                                                    all_goals (injection h with h2; subst h2)
                                                                    all_goals dsimp only
                                                                    all_goals try trivial
                                                                    all_goals try (exact get_rr_true_ne_AF _)
                                                                    all_goals try (split <;> first | trivial | exact get_rr_true_ne_AF _)
                                                                  · rw [if_neg c32] at h
                                                                    by_cases c33 : SizedInstruction.CB.matches opcode = true
                                                                    · rw [if_pos c33] at h
                                                                      repeat' split at h
                                                                      all_goals try exact Option.noConfusion h
                                                                      all_goals (injection h with h2; subst h2)
                                                                      all_goals dsimp only
                                                                      all_goals (apply decode_cb_af_safe mem (addr + 1); assumption)
                                                                    · rw [if_neg c33] at h
                                                                      by_cases c34 : SizedInstruction.IR.matches opcode = true
                                                                      · rw [if_pos c34] at h
                                                                        repeat' split at h
                                                                        all_goals try exact Option.noConfusion h
                                                                        all_goals (injection h with h2; subst h2)
                                                                        all_goals dsimp only
                                                                        all_goals try trivial
                                                                        all_goals try (exact get_rr_true_ne_AF _)
                                                                        all_goals try (split <;> first | trivial | exact get_rr_true_ne_AF _)
                                                                      · rw [if_neg c34] at h
                                                                        exact Option.noConfusion h


/-- OR-ing flag bits with a clear low nibble keeps the low nibble clear. -/
lemma nib_lor (f m : ℕ) (hf : f &&& 15 = 0) (hm : m &&& 15 = 0) : (f ||| m) &&& 15 = 0 := by
  rw [land_lor_distrib_right, hf, hm]
  rfl

/-- AND-ing keeps a clear low nibble clear. -/
lemma nib_land (f m : ℕ) (hf : f &&& 15 = 0) : (f &&& m) &&& 15 = 0 := by
  rw [Nat.land_assoc, Nat.land_comm m 15, ← Nat.land_assoc, hf]
  simp

lemma set_flag_nib (c : CPU) (m : Byte) (hm : m &&& 15 = 0) (hf : c.f &&& 15 = 0) :
    (c.set_flag m).f &&& 15 = 0 := nib_lor _ _ hf hm

/-- `CPU::reset_all_flags` clears the whole flag byte. -/
lemma reset_all_nib (c : CPU) : c.reset_all_flags.f &&& 15 = 0 := by
  simp [CPU.reset_all_flags]

/-- `CPU::set_register` never touches the flag byte. -/
lemma set_register_f (c : CPU) (r : Register) (b : Byte) (c2 : CPU)
    (h : c.set_register r b = some c2) : c2.f = c.f := by
  cases r <;> simp only [CPU.set_register] at h <;>
    first
    | exact Option.noConfusion h
    | (injection h with h2; subst h2; rfl)

lemma reset_flag_nib (c : CPU) (m : Byte) (hf : c.f &&& 15 = 0) :
    (c.reset_flag m).f &&& 15 = 0 := nib_land _ _ hf

lemma zero_flag_nib (c : CPU) (r : Byte) (hf : c.f &&& 15 = 0) :
    (c.zero_flag r).f &&& 15 = 0 := by
  unfold CPU.zero_flag
  split
  · exact set_flag_nib _ _ (by decide) (reset_flag_nib _ _ hf)
  · exact reset_flag_nib _ _ hf

lemma half_add_nib (c : CPU) (b1 b2 : Byte) (hf : c.f &&& 15 = 0) :
    (c.half_carry_flag_add b1 b2).f &&& 15 = 0 := by
  unfold CPU.half_carry_flag_add
  split
  · exact set_flag_nib _ _ (by decide) (reset_flag_nib _ _ hf)
  · exact reset_flag_nib _ _ hf

lemma half_sub_nib (c : CPU) (b1 b2 : Byte) (hf : c.f &&& 15 = 0) :
    (c.half_carry_flag_sub b1 b2).f &&& 15 = 0 := by
  unfold CPU.half_carry_flag_sub
  split
  · exact set_flag_nib _ _ (by decide) (reset_flag_nib _ _ hf)
  · exact reset_flag_nib _ _ hf

/-- Every implemented instruction arm except `POP AF` (and the
decoder-unreachable `AF` forms of `LD rr,nn` / `INC rr` / `DEC rr`)
preserves `F & 0x0F = 0`. -/
lemma exec_preserves_nib (cpu : CPU) (mem : Memory) (si : SizedInstruction)
    (out : CPU × Memory)
    (hf : cpu.f &&& 0x0F = 0)
    (haf : af_safe si.instruction)
    (hpop : ∀ sz, si ≠ ⟨Instruction.POP .AF, sz⟩)
    (hex : CPU.exec_instruction cpu mem si = some out) :
    out.1.f &&& 0x0F = 0 := by
  obtain ⟨ins, sz⟩ := si
  cases ins
  case POP rr =>
    cases rr
    case AF => exact absurd rfl (hpop sz)
    all_goals
      simp only [CPU.exec_instruction] at hex
    all_goals
      repeat' split at hex
    all_goals try exact Option.noConfusion hex
    all_goals (injection hex with h2; subst h2)
    all_goals dsimp only [CPU.set_register16]
    all_goals exact hf
  case LD_RR_NN rr nn =>
    dsimp only [af_safe] at haf
    cases rr
    case AF => exact absurd rfl haf
    all_goals simp only [CPU.exec_instruction] at hex
    all_goals (injection hex with h2; subst h2)
    all_goals dsimp only [CPU.set_register16]
    all_goals exact hf
  case INC_RR rr =>
    dsimp only [af_safe] at haf
    cases rr
    case AF => exact absurd rfl haf
    all_goals simp only [CPU.exec_instruction] at hex
    all_goals (injection hex with h2; subst h2)
    all_goals dsimp only [CPU.set_register16]
    all_goals exact hf
  case DEC_RR rr =>
    dsimp only [af_safe] at haf
    cases rr
    case AF => exact absurd rfl haf
    all_goals simp only [CPU.exec_instruction] at hex
    all_goals (injection hex with h2; subst h2)
    all_goals dsimp only [CPU.set_register16]
    all_goals exact hf
  all_goals simp only [CPU.exec_instruction] at hex
  all_goals try exact Option.noConfusion hex
  all_goals repeat' split at hex
  all_goals try exact Option.noConfusion hex
  all_goals (injection hex with h2; subst h2)
  all_goals dsimp only
  all_goals
    repeat' first
      | exact hf
      | rfl
      | exact reset_all_nib _
      | (rw [set_register_f _ _ _ _ (by assumption)])
      | apply set_flag_nib
      | apply reset_flag_nib
      | apply zero_flag_nib
      | apply half_add_nib
      | apply half_sub_nib
      | decide


/-- The `POP AF` machine state used to refute C3: opcode 0xF1 at the reset
PC, SP = 0xFF80, and 0x3F / 0x12 on the stack. -/
def mem_popaf : Memory :=
  fun a => if a = 0x100 then 0xF1 else if a = 0xFF80 then 0x3F
    else if a = 0xFF81 then 0x12 else 0

def cpu_popaf : CPU := { CPU.new with sp := 0xFF80 }

/-- C3 counterexample: executing `POP AF` (opcode 0xF1) with 0x3F as the
popped low byte leaves `F = 0x3F`, whose low nibble is 0x0F ≠ 0 — the
claimed invariant `F & 0x0F == 0` is violated by a write through the AF
pair, which stores the byte unmasked. -/
theorem pop_af_breaks_flag_nibble :
    (CPU.execute cpu_popaf mem_popaf).map (fun p => p.1.f) = some 0x3F ∧
    (CPU.execute cpu_popaf mem_popaf).map (fun p => p.1.f &&& 0x0F) = some 0x0F ∧
    (0x0F : Byte) ≠ 0 :=
  ⟨rfl, rfl, by decide⟩

/-- C3 amended: `F & 0x0F == 0` is preserved by every executed instruction
except `POP AF`: flag updates only touch the high-nibble flag bits, but
`set_register16(AF, v)` stores the low byte of `v` into F verbatim, so
`POP AF` loads F — low nibble included — straight from memory. -/
theorem flag_low_nibble_invariant :
    (∀ (cpu : CPU) (mem : Memory) (out : CPU × Memory),
      cpu.f &&& 0x0F = 0 →
      (∀ sz, SizedInstruction.decode mem cpu.pc ≠ some ⟨Instruction.POP .AF, sz⟩) →
      CPU.execute cpu mem = some out →
      out.1.f &&& 0x0F = 0) ∧
    (∀ (cpu : CPU) (mem : Memory) (sz : Word) (lsb msb : Byte),
      mem.read_byte cpu.sp = some lsb →
      mem.read_byte (word_add cpu.sp 1) = some msb →
      CPU.exec_instruction cpu mem ⟨Instruction.POP .AF, sz⟩ =
        some ({ cpu with a := WordOP.get_high (bytes2word lsb msb),
                         f := WordOP.get_low (bytes2word lsb msb),
                         sp := word_add (word_add cpu.sp 1) 1,
                         pc := word_add cpu.pc 1 }, mem)) := by
  constructor
  · intro cpu mem out hf hpop hex
    unfold CPU.execute at hex
    rcases hdec : SizedInstruction.decode mem cpu.pc with _ | si
    · rw [hdec] at hex
      exact Option.noConfusion hex
    · rw [hdec] at hex
      have haf := decode_af_safe _ _ _ hdec
      have hpop2 : ∀ sz, si ≠ (⟨Instruction.POP .AF, sz⟩ : SizedInstruction) :=
        fun sz hne => hpop sz (hne ▸ hdec)
      exact exec_preserves_nib cpu mem si out hf haf hpop2 hex
  · intro cpu mem sz lsb msb h1 h2
    simp only [CPU.exec_instruction, CPU.set_register16, h1, h2]

/-- C3 witness: the preservation part at a `NOP` from the reset state, and
the `POP AF` part at the counterexample state. -/
theorem flag_low_nibble_invariant_witness :
    ((CPU.execute CPU.new (mem_exec 0x00 0)).map (fun p => p.1.f &&& 0x0F) = some 0) ∧
    CPU.exec_instruction cpu_popaf mem_popaf ⟨Instruction.POP .AF, 1⟩ =
      some ({ cpu_popaf with
                a := WordOP.get_high (bytes2word 0x3F 0x12),
                f := WordOP.get_low (bytes2word 0x3F 0x12),
                sp := word_add (word_add 0xFF80 1) 1,
                pc := word_add 0x100 1 }, mem_popaf) := by
  constructor
  · have hex : CPU.execute CPU.new (mem_exec 0x00 0) =
        some ({ CPU.new with pc := 0x101 }, mem_exec 0x00 0) := rfl
    have hnib := flag_low_nibble_invariant.1 CPU.new (mem_exec 0x00 0)
      ({ CPU.new with pc := 0x101 }, mem_exec 0x00 0) (by decide)
      (fun sz hde => by
        rw [show SizedInstruction.decode (mem_exec 0x00 0) CPU.new.pc =
          some ⟨Instruction.NOP, 1⟩ from rfl] at hde
        exact Instruction.noConfusion
          (congrArg SizedInstruction.instruction (Option.some.inj hde)))
      hex
    rw [hex]
    simpa using hnib
  · exact flag_low_nibble_invariant.2 cpu_popaf mem_popaf 1 0x3F 0x12 rfl rfl

end GB
